import Mathlib

/-!
Verification development for the distributed L1-TLB cooperation core:
a 16-node bidirectional ring of L1-TLBs with a cooperative probing protocol
(src/akita/mem/vm/tlb/ring_noc.go) and a GMMU translation pipeline with a
Cuckoo-filter fast path (src/akita/mem/vm/gmmu/comp.go, builder.go).

The Go source is shallowly embedded: machine integers become Nat (or Int
where the sign matters, e.g. probe TTLs and page-walk cycle counters),
pointers become Option values, Go maps become association lists with Go map
semantics (lookup of an absent key yields the zero value, modelled by an
Option that the caller must handle exactly where the source dereferences),
and fatal conditions (log.Panicf, panic, nil dereference, index out of
range) become an explicit Fault error in an Except result.

Simulation times (SendTime/RecvTime), tracing calls and the filter mutex do
not affect any verified property and are not modelled; the process-wide
message-ID generator is modelled as an explicit counter threaded through the
state, incremented once per message built, exactly where the source calls a
builder or GetIDGenerator().Generate().

Interfaces that the source uses but whose implementation is outside the
four source files (ports, the set-associative TLB sets, the MSHR, the page
table, the Cuckoo filter library) are modelled from the spec; each such
definition carries a note in its doc comment.
-/

/-- Fatal conditions of the simulated program: the Go source aborts via
log.Panicf (unexpected message type), panic("failed to evict"), a nil
pointer dereference, or an out-of-range slice index. -/
inductive Fault where
  | unexpectedMessageType (typeName : String)
  | nilDereference
  | evictionFailure
  | indexOutOfRange
deriving DecidableEq, Repr

/-- Page: tuple (PID, VAddr, PAddr, DeviceID, Valid), as in vm.Page. -/
structure Page where
  pid : Nat
  vaddr : Nat
  paddr : Nat
  deviceID : Nat
  valid : Bool
deriving DecidableEq, Repr

/-- The zero value of a Go vm.Page struct. -/
def zeroPage : Page := { pid := 0, vaddr := 0, paddr := 0, deviceID := 0, valid := false }

/-- TranslationRequest: (PID, VAddr, DeviceID) plus message metadata.
Src and Dst ports are modelled as opaque Nat tags. -/
structure TranslationReq where
  id : Nat
  pid : Nat
  vaddr : Nat
  deviceID : Nat
  src : Nat
  dst : Nat
deriving DecidableEq, Repr

/-- TranslationResponse: (Page, RspTo) plus message metadata. -/
structure TranslationRsp where
  id : Nat
  rspTo : Nat
  page : Page
  src : Nat
  dst : Nat
deriving DecidableEq, Repr

/-- Modelled from the spec: a buffered, finite-capacity port (§6 Ports:
"offer non-blocking Send returning success/busy"); the concrete port type
(sim.NewLimitNumMsgPort) is outside the source files. Send succeeds iff the
buffer has room, appending the message. -/
structure SimplePort (α : Type) where
  buf : List α
  cap : Nat
deriving DecidableEq, Repr

/-- Non-blocking send: `some` of the updated port on success, `none` when the
port is full (the Go Send returns a non-nil error). -/
def portSend {α : Type} (p : SimplePort α) (m : α) : Option (SimplePort α) :=
  if p.buf.length < p.cap then some { p with buf := p.buf ++ [m] } else none

/-- ProbeRequest (ring_noc.go): virtual address, TTL, direction string,
originating TLB id, Shader Engine id, plus message metadata. The source
reads req.PID in ReceiveProbeRequest although the struct literal never sets
it; the field is modelled explicitly and is zero in every probe the source
builds. -/
structure ProbeRequest where
  id : Nat
  src : Option Nat
  dst : Option Nat
  trafficBytes : Nat
  pid : Nat
  virtualAddr : Nat
  ttl : Int
  direction : String
  sourceTLB : Nat
  seid : Nat
deriving DecidableEq, Repr

/-- ProbeResponse (ring_noc.go): probed address, optional page (nil pointer
when no translation), originating TLB id, Shader Engine id. -/
structure ProbeResponse where
  id : Nat
  src : Option Nat
  dst : Option Nat
  trafficBytes : Nat
  virtualAddr : Nat
  page : Option Page
  sourceTLB : Nat
  seid : Nat
deriving DecidableEq, Repr

/-- A message travelling on the ring connection. Any sim.Msg that is neither
a ProbeRequest nor a ProbeResponse is represented by its type name. -/
inductive RingMsg where
  | probeReq (r : ProbeRequest)
  | probeRsp (r : ProbeResponse)
  | other (typeName : String)
deriving DecidableEq, Repr

/-- Modelled from the spec: one set of the set-associative TLB (§3 TLB);
the Set implementation is outside the source files. Each way holds at most
one page with (PID, VAddr) as identity. -/
structure CacheSet where
  ways : List Page
deriving DecidableEq, Repr

/-- Modelled from the spec: Set.Lookup(PID, VAddr) returns (wayID, page,
found); found means a way matches on (PID, VAddr) (validity is checked by
callers, which test page.Valid separately). -/
def setLookup (set : CacheSet) (pid vaddr : Nat) : Option (Nat × Page) :=
  (set.ways.enum.find? (fun w => w.2.pid == pid && w.2.vaddr == vaddr)).map
    (fun w => (w.1, w.2))

/-- Modelled from the spec: Set.Update(way, page). -/
def setUpdate (set : CacheSet) (way : Nat) (page : Page) : CacheSet :=
  { set with ways := set.ways.set way page }

/-- Modelled from the spec: Set.Visit(way) is a recency hint; the
replacement policy is not observable by any verified property, so Visit is
the identity on the modelled state. -/
def setVisit (set : CacheSet) (_way : Nat) : CacheSet := set

/-- Modelled from the spec: Set.Evict() returns a victim way; the invariant
is that it always returns a way if the set is nonempty (§3). The victim
choice (LRU) is not observable by any verified property; way 0 stands for
the policy's choice. -/
def setEvict (set : CacheSet) : Option Nat :=
  if set.ways.isEmpty then none else some 0

/-- Modelled from the spec: MSHR entry, a mapping value under key
(PID, VAddr) with the ordered pending-request list and the optional
escalated request (§3 MSHR). -/
structure MSHREntry where
  pid : Nat
  vaddr : Nat
  requests : List TranslationReq
  reqToBottom : Option TranslationReq
deriving DecidableEq, Repr

/-- Modelled from the spec: MSHR.Query / MSHR.GetEntry — find the entry for
(PID, VAddr); at most one entry per key exists. -/
def mshrQuery (m : List MSHREntry) (pid vaddr : Nat) : Option MSHREntry :=
  m.find? (fun e => e.pid == pid && e.vaddr == vaddr)

/-- Replace the entry for (PID, VAddr) in place (the source mutates the
entry through the pointer returned by Query/GetEntry). -/
def mshrUpdate (m : List MSHREntry) (pid vaddr : Nat) (f : MSHREntry → MSHREntry) :
    List MSHREntry :=
  match m with
  | [] => []
  | e :: rest =>
    if e.pid == pid && e.vaddr == vaddr then f e :: rest
    else e :: mshrUpdate rest pid vaddr f

/-- Modelled from the spec: MSHR.Remove(PID, VAddr) deletes the entry. -/
def mshrRemove (m : List MSHREntry) (pid vaddr : Nat) : List MSHREntry :=
  match m with
  | [] => []
  | e :: rest =>
    if e.pid == pid && e.vaddr == vaddr then rest
    else e :: mshrRemove rest pid vaddr

/-- State of one L1TLB (ring_noc.go): its id within the ring, the
set-associative cache, the 24-entry prefetch buffer, the probe queue, the
MSHR, and its top/bottom ports.  lowModule is the opaque tag of the next
level's port. -/
structure L1TLBState where
  id : Nat
  numSets : Nat
  sets : List CacheSet
  prefetchBuffer : List Page
  probeQueue : List ProbeRequest
  mshr : List MSHREntry
  topPort : SimplePort TranslationRsp
  bottomPort : SimplePort TranslationReq
  lowModule : Nat
deriving DecidableEq, Repr

/-- State of one RingNoC (ring_noc.go): the TLB array, the in-flight
messages of the ring connection, the Shader Engine id, and the modelled
process-wide message-id counter. -/
structure RingState where
  numTLBs : Nat
  seid : Nat
  tlbs : List L1TLBState
  conn : List RingMsg
  idCounter : Nat
deriving DecidableEq, Repr

/-- Modelled from the spec: vAddrToSetID derives the set index from the
virtual address (§4.1); the exact hash is outside the source files and no
verified property depends on it. -/
def vAddrToSetID (t : L1TLBState) (vaddr : Nat) : Nat :=
  vaddr % t.numSets

/-- Apply a function to TLB i of the ring (mutation through the pointer
ring.TLBs[i]). Out-of-range callers fault before reaching this helper. -/
def modifyTLB (s : RingState) (i : Nat) (f : L1TLBState → L1TLBState) : RingState :=
  match s.tlbs.get? i with
  | none => s
  | some t => { s with tlbs := s.tlbs.set i (f t) }

/-- GetNextTLB (ring_noc.go lines 95-104): the index of the next TLB in the
given direction, none for an unrecognized direction string. Go computes
(id+1) % NumTLBs and (id-1+NumTLBs) % NumTLBs in int arithmetic; for id ≥ 0
the latter equals (id + NumTLBs - 1) % NumTLBs in Nat arithmetic. -/
def GetNextTLB (numTLBs : Nat) (currentTLBID : Nat) (direction : String) : Option Nat :=
  if direction = "clockwise" then some ((currentTLBID + 1) % numTLBs)
  else if direction = "counterclockwise" then
    some ((currentTLBID + numTLBs - 1) % numTLBs)
  else none

/-- The body of NotifyMiss's loop over the MSHR entry's requests
(ring_noc.go lines 252-265): for each pending request build a
TranslationReq to the low module (consuming one generated id) and attempt a
bottom-port send; on success the entry's reqToBottom is overwritten with
the request just sent, on failure it is left as it was. -/
def notifyLoop (lowModule srcTag vaddr : Nat) :
    List TranslationReq → SimplePort TranslationReq → Option TranslationReq → Nat →
    SimplePort TranslationReq × Option TranslationReq × Nat
  | [], port, rtb, c => (port, rtb, c)
  | r :: rest, port, rtb, c =>
    let fetchReq : TranslationReq :=
      { id := c, pid := r.pid, vaddr := vaddr, deviceID := r.deviceID,
        src := srcTag, dst := lowModule }
    match portSend port fetchReq with
    | some port' => notifyLoop lowModule srcTag vaddr rest port' (some fetchReq) (c + 1)
    | none => notifyLoop lowModule srcTag vaddr rest port rtb (c + 1)

/-- NotifyMiss (ring_noc.go lines 244-266) on a single TLB: query the MSHR
with the hard-coded PID 0; if no entry exists return unchanged; otherwise
loop over the entry's requests sending each to the low module. Returns the
updated TLB together with the advanced id counter. -/
def notifyMissTLB (c : Nat) (t : L1TLBState) (virtualAddr : Nat) : L1TLBState × Nat :=
  match mshrQuery t.mshr 0 virtualAddr with
  | none => (t, c)
  | some entry =>
    let r := notifyLoop t.lowModule t.id virtualAddr entry.requests t.bottomPort
      entry.reqToBottom c
    ({ t with bottomPort := r.1,
              mshr := mshrUpdate t.mshr 0 virtualAddr
                (fun e => { e with reqToBottom := r.2.1 }) }, r.2.2)

/-- NotifyMiss invoked on ring.TLBs[i]. -/
def notifyMissAt (s : RingState) (i vaddr : Nat) : RingState :=
  match s.tlbs.get? i with
  | none => s
  | some t =>
    let r := notifyMissTLB s.idCounter t vaddr
    { s with tlbs := s.tlbs.set i r.1, idCounter := r.2 }

/-- SendProbeRequest (ring_noc.go lines 107-120): if the next hop exists and
the TTL is positive, decrement the TTL and hand the message to the ring
connection addressed to the next hop; otherwise the probe dies here and
NotifyMiss is invoked on the originator ring.TLBs[req.SourceTLB] (a fault if
that index is out of range, as the Go slice index would panic). -/
def SendProbeRequest (s : RingState) (tlbID : Nat) (req : ProbeRequest) :
    Except Fault RingState :=
  let next := GetNextTLB s.numTLBs tlbID req.direction
  if next.isSome ∧ 0 < req.ttl then
    .ok { s with conn := s.conn ++
      [RingMsg.probeReq { req with ttl := req.ttl - 1, src := some tlbID,
                                   dst := next, trafficBytes := 64 }] }
  else
    if req.sourceTLB < s.tlbs.length then
      .ok (notifyMissAt s req.sourceTLB req.virtualAddr)
    else .error .indexOutOfRange

/-- Build the ProbeResponse of ReceiveProbeRequest's hit paths
(ring_noc.go lines 162-175 and 183-196). -/
def mkProbeRsp (c selfID : Nat) (req : ProbeRequest) (pg : Option Page) : ProbeResponse :=
  { id := c, src := some selfID, dst := some req.sourceTLB, trafficBytes := 128,
    virtualAddr := req.virtualAddr, page := pg,
    sourceTLB := req.sourceTLB, seid := req.seid }

/-- Modelled from the spec: the linear scan of the 24-entry prefetch buffer
for (PID, VAddr, Valid) (§4.3 step 2; ring_noc.go lines 181-200 iterate and
answer with the first match). -/
def prefetchFind (buf : List Page) (pid vaddr : Nat) : Option Page :=
  buf.find? (fun p => p.pid == pid && p.vaddr == vaddr && p.valid)

/-- The set-probe step of ReceiveProbeRequest (ring_noc.go lines 157-160):
the page on a found-and-valid lookup, none otherwise. -/
def setProbeHit (set : CacheSet) (pid vaddr : Nat) : Option Page :=
  match setLookup set pid vaddr with
  | some (_, page) => if page.valid then some page else none
  | none => none

/-- ReceiveProbeRequest (ring_noc.go lines 155-204) at TLB i: probe the local
set; on a valid hit inject a ProbeResponse carrying the page into the
connection; otherwise scan the prefetch buffer and answer likewise on a
match; otherwise append the request to the local probe queue for a later
forward. -/
def ReceiveProbeRequest (s : RingState) (i : Nat) (req : ProbeRequest) :
    Except Fault RingState :=
  match s.tlbs.get? i with
  | none => .error .indexOutOfRange
  | some t =>
    match t.sets.get? (vAddrToSetID t req.virtualAddr) with
    | none => .error .indexOutOfRange
    | some set =>
      match setProbeHit set req.pid req.virtualAddr with
      | some page =>
        if req.sourceTLB < s.tlbs.length then
          .ok { s with conn := s.conn ++ [RingMsg.probeRsp (mkProbeRsp s.idCounter t.id req (some page))],
                       idCounter := s.idCounter + 1 }
        else .error .indexOutOfRange
      | none =>
        match prefetchFind t.prefetchBuffer req.pid req.virtualAddr with
        | some p =>
          if req.sourceTLB < s.tlbs.length then
            .ok { s with conn := s.conn ++ [RingMsg.probeRsp (mkProbeRsp s.idCounter t.id req (some p))],
                         idCounter := s.idCounter + 1 }
          else .error .indexOutOfRange
        | none =>
          .ok (modifyTLB s i (fun u => { u with probeQueue := u.probeQueue ++ [req] }))

/-- The loop of ReceiveProbeResponse over the MSHR entry's requests
(ring_noc.go lines 222-234): for each queued request build a
TranslationResponse preserving the client's request id in RspTo and attempt
a top-port send; failures are silently dropped. One generated id is
consumed per request built. -/
def drainLoop (selfTag : Nat) (page : Page) :
    List TranslationReq → SimplePort TranslationRsp → Nat →
    SimplePort TranslationRsp × Nat
  | [], port, c => (port, c)
  | r :: rest, port, c =>
    let rsp : TranslationRsp := { id := c, rspTo := r.id, page := page,
                                  src := selfTag, dst := r.src }
    match portSend port rsp with
    | some port' => drainLoop selfTag page rest port' (c + 1)
    | none => drainLoop selfTag page rest port (c + 1)

/-- ReceiveProbeResponse (ring_noc.go lines 207-241) at TLB i: on a valid
page, evict a way (a fault if eviction fails, as the source panics), install
the page, drain the MSHR entry's requests upstream and remove the entry;
on a nil or invalid page, invoke NotifyMiss on this TLB. -/
def ReceiveProbeResponse (s : RingState) (i : Nat) (rsp : ProbeResponse) :
    Except Fault RingState :=
  match s.tlbs.get? i with
  | none => .error .indexOutOfRange
  | some t =>
    match rsp.page with
    | some page =>
      if page.valid then
        let setID := vAddrToSetID t rsp.virtualAddr
        match t.sets.get? setID with
        | none => .error .indexOutOfRange
        | some set =>
          match setEvict set with
          | none => .error .evictionFailure
          | some wayID =>
            let set' := setVisit (setUpdate set wayID page) wayID
            let t1 := { t with sets := t.sets.set setID set' }
            match mshrQuery t1.mshr page.pid rsp.virtualAddr with
            | none => .ok { s with tlbs := s.tlbs.set i t1 }
            | some entry =>
              let r := drainLoop t1.id page entry.requests t1.topPort s.idCounter
              let t2 := { t1 with topPort := r.1,
                                  mshr := mshrRemove t1.mshr page.pid rsp.virtualAddr }
              .ok { s with tlbs := s.tlbs.set i t2, idCounter := r.2 }
      else .ok (notifyMissAt s i rsp.virtualAddr)
    | none => .ok (notifyMissAt s i rsp.virtualAddr)

/-- DeliverMessage (ring_noc.go lines 123-137): a ProbeRequest or
ProbeResponse is dispatched to ring.TLBs[msg.SourceTLB] and true is
returned; any other message type returns false with the ring unchanged. -/
def DeliverMessage (s : RingState) (msg : RingMsg) : Except Fault (RingState × Bool) :=
  match msg with
  | .probeReq r =>
    match ReceiveProbeRequest s r.sourceTLB r with
    | .ok s' => .ok (s', true)
    | .error f => .error f
  | .probeRsp r =>
    match ReceiveProbeResponse s r.sourceTLB r with
    | .ok s' => .ok (s', true)
    | .error f => .error f
  | .other _ => .ok (s, false)

/-- InitiateProbing (ring_noc.go lines 269-301) on one TLB: append a
clockwise probe with TTL 15 and a counterclockwise probe with TTL 4 to the
probe queue, both carrying SourceTLB = tlb.ID and SEID = ring.SEID; two
message ids are generated. -/
def initiateProbing (seid c : Nat) (t : L1TLBState) (virtualAddr : Nat) :
    L1TLBState × Nat :=
  let clockwiseReq : ProbeRequest :=
    { id := c, src := some t.id, dst := none, trafficBytes := 64, pid := 0,
      virtualAddr := virtualAddr, ttl := 15, direction := "clockwise",
      sourceTLB := t.id, seid := seid }
  let counterclockwiseReq : ProbeRequest :=
    { id := c + 1, src := some t.id, dst := none, trafficBytes := 64, pid := 0,
      virtualAddr := virtualAddr, ttl := 4, direction := "counterclockwise",
      sourceTLB := t.id, seid := seid }
  ({ t with probeQueue := t.probeQueue ++ [clockwiseReq, counterclockwiseReq] }, c + 2)

/-- InitiateProbing invoked on ring.TLBs[i]. -/
def initiateProbingAt (s : RingState) (i vaddr : Nat) : RingState :=
  match s.tlbs.get? i with
  | none => s
  | some t =>
    let r := initiateProbing s.seid s.idCounter t vaddr
    { s with tlbs := s.tlbs.set i r.1, idCounter := r.2 }

/-! ## GMMU model (src/akita/mem/vm/gmmu/comp.go, builder.go) -/

/-- A message arriving at a GMMU port. Any sim.Msg that is neither a
TranslationReq nor a TranslationRsp is represented by its type name. -/
inductive GMsg where
  | req (r : TranslationReq)
  | rsp (r : TranslationRsp)
  | other (typeName : String)
deriving DecidableEq, Repr

/-- The Go type name reported by reflect.TypeOf in the panic diagnostics. -/
def GMsg.typeName : GMsg → String
  | .req _ => "*vm.TranslationReq"
  | .rsp _ => "*vm.TranslationRsp"
  | .other s => s

/-- A page-walk transaction (comp.go lines 18-22): the request being
translated, its resolved page (the zero Page until resolution), and the
remaining walk cycles. -/
structure Transaction where
  req : TranslationReq
  page : Page
  cycleLeft : Int
deriving DecidableEq, Repr

/-- Modelled from the spec: the Cuckoo filter contract (§4.5). keys are the
members successfully inserted since the last Reset; fp is the oracle for
false positives of Lookup; insertOk is the oracle deciding whether an
Insert succeeds given the current members (Insert may fail
probabilistically). The filter library is outside the source files. -/
structure CuckooFilter where
  keys : List (List Nat)
  fp : List Nat → Bool
  insertOk : List (List Nat) → List Nat → Bool

/-- Lookup: true for every successfully inserted key, and possibly true for
absent keys (false positives). -/
def cuckooLookup (f : CuckooFilter) (k : List Nat) : Bool :=
  f.keys.contains k || f.fp k

/-- Insert: some of the grown filter on success, none on failure. -/
def cuckooInsert (f : CuckooFilter) (k : List Nat) : Option CuckooFilter :=
  if f.insertOk f.keys k then some { f with keys := k :: f.keys } else none

/-- Reset: drop all membership information. -/
def cuckooReset (f : CuckooFilter) : CuckooFilter :=
  { f with keys := [] }

/-- The insert-with-recovery of handleTranslationRsp (comp.go lines
260-266): on insert failure, Reset the filter and retry once, ignoring the
result of the retry. -/
def insertWithRetry (f : CuckooFilter) (k : List Nat) : CuckooFilter :=
  match cuckooInsert f k with
  | some f1 => f1
  | none =>
    let f1 := cuckooReset f
    match cuckooInsert f1 k with
    | some f2 => f2
    | none => f1

/-- The little-endian byte list of the low w bytes of x. -/
def leBytes (w : Nat) (x : Nat) : List Nat :=
  (List.range w).map (fun i => x / 2 ^ (8 * i) % 256)

/-- encodeVAddrPID (comp.go lines 63-68): 12 bytes, the 8 little-endian
bytes of the 64-bit virtual address followed by the 4 little-endian bytes
of the 32-bit PID. -/
def encodeVAddrPID (vaddr pid : Nat) : List Nat :=
  leBytes 8 (vaddr % 2 ^ 64) ++ leBytes 4 (pid % 2 ^ 32)

/-- Modelled from the spec: the page table is a key→page lookup oracle
keyed by (PID, VAddr) (§1, §3); its implementation is outside the source
files. Find returns the page for the key if present. -/
def ptFind (pt : List Page) (pid vaddr : Nat) : Option Page :=
  pt.find? (fun p => p.pid == pid && p.vaddr == vaddr)

/-- Go's (page, found) Find with the found flag discarded: the zero Page
when the key is absent (walkPageTable ignores the found flag). -/
def ptFindD (pt : List Page) (pid vaddr : Nat) : Page :=
  (ptFind pt pid vaddr).getD zeroPage

/-- Modelled from the spec: PageTable.Update installs the page under its
(PID, VAddr) key, replacing any previous page for that key. -/
def ptUpdate (pt : List Page) (page : Page) : List Page :=
  match pt with
  | [] => [page]
  | p :: rest =>
    if p.pid == page.pid && p.vaddr == page.vaddr then page :: rest
    else p :: ptUpdate rest page

/-- Go map lookup in remoteMemReqs (comp.go line 254): some value if the
key is present. An absent key yields the zero transaction whose req pointer
is nil; the caller models the subsequent dereference as a fault. -/
def rmGet (m : List (Nat × Transaction)) (k : Nat) : Option Transaction :=
  (m.find? (fun kv => kv.1 == k)).map (fun kv => kv.2)

/-- Go map assignment remoteMemReqs[k] = t: replace or append. -/
def rmSet (m : List (Nat × Transaction)) (k : Nat) (t : Transaction) :
    List (Nat × Transaction) :=
  match m with
  | [] => [(k, t)]
  | kv :: rest =>
    if kv.1 == k then (k, t) :: rest
    else kv :: rmSet rest k t

/-- Go delete(remoteMemReqs, k). -/
def rmErase (m : List (Nat × Transaction)) (k : Nat) : List (Nat × Transaction) :=
  match m with
  | [] => []
  | kv :: rest =>
    if kv.1 == k then rest
    else kv :: rmErase rest k

/-- Opaque tag of the GMMU's top port, used as the Src of responses built
with WithSrc(gmmu.topPort). -/
def gmmuTopPortTag : Nat := 0

/-- Opaque tag of the GMMU's bottom port, used as the Src of escalation
requests built with WithSrc(gmmu.bottomPort). -/
def gmmuBottomPortTag : Nat := 1

/-- State of the GMMU component (comp.go lines 25-48).  topIncoming and
bottomIncoming are the receive buffers of the two ports; topOut is the list
of responses already pushed onto the top port by the buffered sender;
topSenderBuf is the buffered sender's internal queue (CanSend(1) asks for
room there); bottomOut is the bottom port's outgoing buffer.  idCounter
models the process-wide message-id generator. -/
structure GMMU where
  deviceID : Nat
  latency : Int
  maxRequestsInFlight : Nat
  lowModule : Nat
  topIncoming : List GMsg
  bottomIncoming : List GMsg
  topOut : List TranslationRsp
  topOutCap : Nat
  topSenderBuf : List TranslationRsp
  topSenderCap : Nat
  bottomOut : List TranslationReq
  bottomOutCap : Nat
  pageTable : List Page
  walkingTranslations : List Transaction
  remoteMemReqs : List (Nat × Transaction)
  toRemoveFromPTW : List Nat
  cuckooFilter : CuckooFilter
  idCounter : Nat

/-- Modelled from the spec: topSender.CanSend(n) — the buffered sender can
accept n more messages (§5 back-pressure). -/
def canSend (s : GMMU) (n : Nat) : Prop :=
  s.topSenderBuf.length + n ≤ s.topSenderCap

instance (s : GMMU) (n : Nat) : Decidable (canSend s n) := by
  unfold canSend; infer_instance

/-- Modelled from the spec: topSender.Tick pushes queued responses onto the
top port as its flow control permits (§4.4 step 1); one message moves per
tick in this model. -/
def topSenderTick (s : GMMU) : GMMU × Bool :=
  match s.topSenderBuf with
  | [] => (s, false)
  | r :: rest =>
    if s.topOut.length < s.topOutCap then
      ({ s with topSenderBuf := rest, topOut := s.topOut ++ [r] }, true)
    else (s, false)

/-- startWalking (comp.go lines 115-122): enqueue a new transaction with
cycleLeft = latency (its page is the zero value). -/
def startWalking (s : GMMU) (req : TranslationReq) : GMMU :=
  { s with walkingTranslations := s.walkingTranslations ++
      [{ req := req, page := zeroPage, cycleLeft := s.latency }] }

/-- Append a response built by TranslationRspBuilder to the top sender,
consuming one generated id. -/
def sendTopRsp (s : GMMU) (rspTo : Nat) (page : Page) (dst : Nat) : GMMU :=
  { s with
    topSenderBuf := s.topSenderBuf ++
      [{ id := s.idCounter, rspTo := rspTo, page := page,
         src := gmmuTopPortTag, dst := dst }],
    idCounter := s.idCounter + 1 }

/-- parseFromTop (comp.go lines 70-113): stall when the walking list has
reached maxRequestsInFlight; otherwise retrieve one message from the top
port.  For a TranslationReq, consult the Cuckoo filter; on a filter hit
verify with the page table, and if the page is local and the top sender has
room respond directly; every other path starts a page walk.  Any other
message type is a fatal log.Panicf naming the type. -/
def parseFromTop (s : GMMU) : Except Fault (GMMU × Bool) :=
  if s.walkingTranslations.length ≥ s.maxRequestsInFlight then .ok (s, false)
  else
    match s.topIncoming with
    | [] => .ok (s, false)
    | m :: rest =>
      let s0 := { s with topIncoming := rest }
      match m with
      | .req req =>
        if cuckooLookup s0.cuckooFilter (encodeVAddrPID req.vaddr req.pid) then
          match ptFind s0.pageTable req.pid req.vaddr with
          | some page =>
            if page.deviceID = s0.deviceID then
              if canSend s0 1 then .ok (sendTopRsp s0 req.id page req.src, true)
              else .ok (startWalking s0 req, true)
            else .ok (startWalking s0 req, true)
          | none => .ok (startWalking s0 req, true)
        else .ok (startWalking s0 req, true)
      | m => .error (.unexpectedMessageType m.typeName)

/-- doPageWalkHit (comp.go lines 195-219): if the top sender cannot accept
a message, return false leaving everything as is; otherwise build the
TranslationResponse for the walking transaction (RspTo = the walked
request's id), push it on the top sender, and mark the index for removal. -/
def doPageWalkHit (s : GMMU) (i : Nat) : GMMU × Bool :=
  if canSend s 1 then
    match s.walkingTranslations.get? i with
    | none => (s, false)
    | some walking =>
      ({ s with
         topSenderBuf := s.topSenderBuf ++
           [{ id := s.idCounter, rspTo := walking.req.id, page := walking.page,
              src := gmmuTopPortTag, dst := walking.req.src }],
         toRemoveFromPTW := s.toRemoveFromPTW ++ [i],
         idCounter := s.idCounter + 1 }, true)
  else (s, false)

/-- finalizePageWalk (comp.go lines 184-193): resolve the page table for
the walked request, store the page into the transaction, then attempt the
response via doPageWalkHit.  Note the page field is written before
doPageWalkHit checks the top sender. -/
def finalizePageWalk (s : GMMU) (i : Nat) : GMMU × Bool :=
  match s.walkingTranslations.get? i with
  | none => (s, false)
  | some t =>
    let pg := ptFindD s.pageTable t.req.pid t.req.vaddr
    doPageWalkHit
      { s with walkingTranslations :=
          s.walkingTranslations.set i { t with page := pg } } i

/-- processRemoteMemReq (comp.go lines 155-182): record the transaction in
remoteMemReqs under its VAddr, build a TranslationReq to the low module
(consuming one generated id), and send it out of the bottom port; only on a
successful send is the index marked for removal.  The CanSend guard in the
source is commented out. -/
def processRemoteMemReq (s : GMMU) (i : Nat) : GMMU × Bool :=
  match s.walkingTranslations.get? i with
  | none => (s, false)
  | some t =>
    let s1 := { s with remoteMemReqs := rmSet s.remoteMemReqs t.req.vaddr t }
    let req : TranslationReq :=
      { id := s1.idCounter, pid := t.req.pid, vaddr := t.req.vaddr,
        deviceID := t.req.deviceID, src := gmmuBottomPortTag, dst := s1.lowModule }
    let s2 := { s1 with idCounter := s1.idCounter + 1 }
    match portSend { buf := s2.bottomOut, cap := s2.bottomOutCap } req with
    | none => (s2, false)
    | some out =>
      ({ s2 with bottomOut := out.buf,
                 toRemoveFromPTW := s2.toRemoveFromPTW ++ [i] }, true)

/-- One iteration of walkPageTable's per-entry loop (comp.go lines
126-141) at index i: decrement a positive cycleLeft; otherwise resolve the
page table and either finalize locally or escalate remotely according to
the page's DeviceID. -/
def processIndex (s : GMMU) (i : Nat) : GMMU × Bool :=
  match s.walkingTranslations.get? i with
  | none => (s, false)
  | some t =>
    if 0 < t.cycleLeft then
      ({ s with walkingTranslations :=
           s.walkingTranslations.set i { t with cycleLeft := t.cycleLeft - 1 } }, true)
    else
      if (ptFindD s.pageTable t.req.pid t.req.vaddr).deviceID = s.deviceID then
        finalizePageWalk s i
      else
        processRemoteMemReq s i

/-- The per-entry pass of walkPageTable over a list of indices. -/
def walkIndices (s : GMMU) : List Nat → GMMU × Bool
  | [] => (s, false)
  | i :: rest =>
    let r := processIndex s i
    let r2 := walkIndices r.1 rest
    (r2.1, r.2 || r2.2)

/-- The toRemove helper (comp.go lines 221-229): linear membership scan of
toRemoveFromPTW. -/
def toRemoveIdx : List Nat → Nat → Bool
  | [], _ => false
  | r :: rest, i => if r = i then true else toRemoveIdx rest i

/-- walkPageTable (comp.go lines 124-153): run the per-entry pass over all
current indices, then compact the walking list by dropping the indices
accumulated in toRemoveFromPTW and clear that list. -/
def walkPageTable (s : GMMU) : GMMU × Bool :=
  let n := s.walkingTranslations.length
  let r := walkIndices s (List.range n)
  let s1 := r.1
  let kept := (s1.walkingTranslations.enum.filter
      (fun q => !toRemoveIdx s1.toRemoveFromPTW q.1)).map Prod.snd
  ({ s1 with walkingTranslations := kept, toRemoveFromPTW := [] }, r.2)

/-- handleTranslationRsp (comp.go lines 253-280): look up the bottom
response's VAddr in remoteMemReqs, update the page table with the returned
page, insert the (VAddr, PID) key into the Cuckoo filter with one
Reset-and-retry on failure, then build the upstream response with
Dst = the stored requester's Src and RspTo = the bottom response's id, push
it on the top sender and delete the remoteMemReqs entry.  When the VAddr is
absent the looked-up transaction is the zero value with a nil req, and the
Dst dereference faults. -/
def handleTranslationRsp (s : GMMU) (response : TranslationRsp) :
    Except Fault (GMMU × Bool) :=
  let lookup := rmGet s.remoteMemReqs response.page.vaddr
  let s1 := { s with pageTable := ptUpdate s.pageTable response.page }
  let s2 := { s1 with
    cuckooFilter := insertWithRetry s1.cuckooFilter
      (encodeVAddrPID response.page.vaddr response.page.pid) }
  match lookup with
  | none => .error .nilDereference
  | some t =>
    let rsp : TranslationRsp :=
      { id := s2.idCounter, rspTo := response.id, page := response.page,
        src := gmmuTopPortTag, dst := t.req.src }
    .ok ({ s2 with
           topSenderBuf := s2.topSenderBuf ++ [rsp],
           idCounter := s2.idCounter + 1,
           remoteMemReqs := rmErase s2.remoteMemReqs response.page.vaddr }, true)

/-- fetchFromBottom (comp.go lines 231-251): only when the top sender can
accept a message, retrieve one message from the bottom port; a
TranslationRsp is handled by handleTranslationRsp, any other type is a
fatal log.Panicf naming the type. -/
def fetchFromBottom (s : GMMU) : Except Fault (GMMU × Bool) :=
  if canSend s 1 then
    match s.bottomIncoming with
    | [] => .ok (s, false)
    | m :: rest =>
      let s0 := { s with bottomIncoming := rest }
      match m with
      | .rsp r => handleTranslationRsp s0 r
      | m => .error (.unexpectedMessageType m.typeName)
  else .ok (s, false)

/-- Tick (comp.go lines 51-60): drain the top sender, parse from the top
port, walk the page table, fetch from the bottom port; the progress bit is
the disjunction of the four steps. -/
def gmmuTick (s : GMMU) : Except Fault (GMMU × Bool) :=
  let r1 := topSenderTick s
  match parseFromTop r1.1 with
  | .error f => .error f
  | .ok r2 =>
    let r3 := walkPageTable r2.1
    match fetchFromBottom r3.1 with
    | .error f => .error f
    | .ok r4 => .ok (r4.1, r1.2 || r2.2 || r3.2 || r4.2)

/-- The configuration surface of the GMMU builder (builder.go). -/
structure GMMUConfig where
  deviceID : Nat
  lowModule : Nat
  maxNumReqInFlight : Nat
  pageWalkingLatency : Int
  pageTable : List Page
  fp : List Nat → Bool
  insertOk : List (List Nat) → List Nat → Bool

/-- Builder.Build (builder.go lines 121-146): fresh ports of capacity 4096,
buffered senders over 4096-entry buffers, empty remoteMemReqs, a fresh
Cuckoo filter, and the configured internal state with the zero-value
defaults maxNumReqInFlight = 16 and pageWalkingLatency = 10 applied. -/
def buildGMMU (cfg : GMMUConfig) : GMMU :=
  { deviceID := cfg.deviceID
    latency := if cfg.pageWalkingLatency = 0 then 10 else cfg.pageWalkingLatency
    maxRequestsInFlight := if cfg.maxNumReqInFlight = 0 then 16 else cfg.maxNumReqInFlight
    lowModule := cfg.lowModule
    topIncoming := []
    bottomIncoming := []
    topOut := []
    topOutCap := 4096
    topSenderBuf := []
    topSenderCap := 4096
    bottomOut := []
    bottomOutCap := 4096
    pageTable := cfg.pageTable
    walkingTranslations := []
    remoteMemReqs := []
    toRemoveFromPTW := []
    cuckooFilter := { keys := [], fp := cfg.fp, insertOk := cfg.insertOk }
    idCounter := 0 }

/-- The GMMU states reachable from a built component: ticks that complete
without a fault, and environment deliveries of messages onto the receive
buffers of the two ports. -/
inductive GMMUReachable : GMMU → Prop where
  | init (cfg : GMMUConfig) : GMMUReachable (buildGMMU cfg)
  | tick {s s' : GMMU} {b : Bool} :
      GMMUReachable s → gmmuTick s = .ok (s', b) → GMMUReachable s'
  | deliverTop {s : GMMU} (m : GMsg) :
      GMMUReachable s → GMMUReachable { s with topIncoming := s.topIncoming ++ [m] }
  | deliverBottom {s : GMMU} (m : GMsg) :
      GMMUReachable s → GMMUReachable { s with bottomIncoming := s.bottomIncoming ++ [m] }

/-! ## Theorems

One theorem per claim of the specification review, with per-claim concrete
states for witnesses and counterexamples.  Helper lemmas are shared. -/

/-- Helper: the length computed by notifyLoop when the bottom port has room
for every pending request: every send succeeds and appends. -/
theorem notifyLoop_length_of_room (lm st va : Nat) :
    ∀ (reqs : List TranslationReq) (port : SimplePort TranslationReq)
      (rtb : Option TranslationReq) (c : Nat),
      port.buf.length + reqs.length ≤ port.cap →
      (notifyLoop lm st va reqs port rtb c).1.buf.length =
        port.buf.length + reqs.length := by
  intro reqs
  induction reqs with
  | nil => intro port rtb c _; simp [notifyLoop]
  | cons r rest ih =>
    intro port rtb c h
    have hlt : port.buf.length < port.cap := by
      simp only [List.length_cons] at h; omega
    simp only [notifyLoop, portSend, if_pos hlt]
    have := ih { port with buf := port.buf ++
        [{ id := c, pid := r.pid, vaddr := va, deviceID := r.deviceID,
           src := st, dst := lm }] }
      (some { id := c, pid := r.pid, vaddr := va, deviceID := r.deviceID,
              src := st, dst := lm }) (c + 1)
      (by simp only [List.length_append, List.length_cons, List.length_nil,
            List.length_cons] at h ⊢; omega)
    simp only [List.length_append, List.length_cons, List.length_nil] at this ⊢
    omega

/-- C1 amended: NotifyMiss is not idempotent.  Whenever the MSHR holds an
entry for (PID 0, VAddr) — in particular one whose reqToBottom is already
set by a previous invocation — and the bottom port has room for all its
pending requests, NotifyMiss sends one further TranslationRequest per
pending request out of the bottom port. -/
theorem notifyMiss_resends (c : Nat) (t : L1TLBState) (vaddr : Nat) (entry : MSHREntry)
    (hq : mshrQuery t.mshr 0 vaddr = some entry)
    (hset : entry.reqToBottom.isSome = true)
    (hroom : t.bottomPort.buf.length + entry.requests.length ≤ t.bottomPort.cap) :
    (notifyMissTLB c t vaddr).1.bottomPort.buf.length =
      t.bottomPort.buf.length + entry.requests.length := by
  simp only [notifyMissTLB, hq]
  exact notifyLoop_length_of_room t.lowModule t.id vaddr entry.requests
    t.bottomPort entry.reqToBottom c hroom

/-- The concrete client request for the C1 scenario. -/
def c1Req : TranslationReq :=
  { id := 5, pid := 0, vaddr := 4096, deviceID := 1, src := 7, dst := 8 }

/-- A concrete L1-TLB with one MSHR entry for (PID 0, VAddr 4096) holding one
pending request and no escalation yet. -/
def c1Tlb : L1TLBState :=
  { id := 0, numSets := 1, sets := [{ ways := [zeroPage] }], prefetchBuffer := [],
    probeQueue := [],
    mshr := [{ pid := 0, vaddr := 4096, requests := [c1Req], reqToBottom := none }],
    topPort := { buf := [], cap := 4 }, bottomPort := { buf := [], cap := 4 },
    lowModule := 9 }

/-- The TLB state after a first NotifyMiss(4096): reqToBottom is set and one
TranslationRequest has left the bottom port. -/
def c1TlbAfterFirst : L1TLBState := (notifyMissTLB 100 c1Tlb 4096).1

/-- C1 counterexample: after a first NotifyMiss has succeeded (reqToBottom
is set and one request was sent), a second NotifyMiss for the same virtual
address sends a further TranslationRequest out of the bottom port — the
claimed reqToBottom-set check does not exist in the source. -/
theorem c1_counterexample :
    c1TlbAfterFirst.mshr.map (fun e => e.reqToBottom.isSome) = [true] ∧
    c1TlbAfterFirst.bottomPort.buf.length = 1 ∧
    (notifyMissTLB 200 c1TlbAfterFirst 4096).1.bottomPort.buf.length = 2 := by
  refine ⟨by decide, by decide, by decide⟩

/-- The TLB of the C1 witness: the MSHR entry already carries a stashed
reqToBottom. -/
def c1WitTlb : L1TLBState :=
  { c1Tlb with
    mshr := [{ pid := 0, vaddr := 4096, requests := [c1Req],
               reqToBottom := some c1Req }] }

/-- The MSHR entry of the C1 witness. -/
def c1WitEntry : MSHREntry :=
  { pid := 0, vaddr := 4096, requests := [c1Req], reqToBottom := some c1Req }

/-- Witness for notifyMiss_resends at a concrete state with reqToBottom
already set. -/
theorem notifyMiss_resends_witness :
    (notifyMissTLB 0 c1WitTlb 4096).1.bottomPort.buf.length =
      c1WitTlb.bottomPort.buf.length + c1WitEntry.requests.length :=
  notifyMiss_resends 0 c1WitTlb 4096 c1WitEntry (by decide) (by decide) (by decide)

/-- C4: InitiateProbing on ring.TLBs[i] appends exactly two ProbeRequests to
that TLB's ProbeQueue — a clockwise one with TTL 15 and a counterclockwise
one with TTL 4 — both carrying SourceTLB = the initiating TLB's ID and
SEID = the ring's SEID; the id counter advances by the two generated ids. -/
theorem initiateProbing_appends_two (s : RingState) (i vaddr : Nat) (t : L1TLBState)
    (ht : s.tlbs.get? i = some t) :
    initiateProbingAt s i vaddr =
      { s with
        tlbs := s.tlbs.set i
          { t with probeQueue := t.probeQueue ++
              [{ id := s.idCounter, src := some t.id, dst := none,
                 trafficBytes := 64, pid := 0, virtualAddr := vaddr, ttl := 15,
                 direction := "clockwise", sourceTLB := t.id, seid := s.seid },
               { id := s.idCounter + 1, src := some t.id, dst := none,
                 trafficBytes := 64, pid := 0, virtualAddr := vaddr, ttl := 4,
                 direction := "counterclockwise", sourceTLB := t.id,
                 seid := s.seid }] },
        idCounter := s.idCounter + 2 } := by
  simp only [initiateProbingAt, ht, initiateProbing]

/-- The concrete ring of the C4 witness: one TLB, empty queue. -/
def c4Ring : RingState :=
  { numTLBs := 16, seid := 3,
    tlbs := [{ id := 0, numSets := 1, sets := [{ ways := [zeroPage] }],
               prefetchBuffer := [], probeQueue := [], mshr := [],
               topPort := { buf := [], cap := 4 },
               bottomPort := { buf := [], cap := 4 }, lowModule := 9 }],
    conn := [], idCounter := 0 }

/-- Witness for initiateProbing_appends_two at the concrete ring. -/
theorem initiateProbing_appends_two_witness :
    initiateProbingAt c4Ring 0 4096 =
      { c4Ring with
        tlbs := c4Ring.tlbs.set 0
          { (c4Ring.tlbs.get ⟨0, by decide⟩) with probeQueue :=
              (c4Ring.tlbs.get ⟨0, by decide⟩).probeQueue ++
              [{ id := c4Ring.idCounter, src := some 0, dst := none,
                 trafficBytes := 64, pid := 0, virtualAddr := 4096, ttl := 15,
                 direction := "clockwise", sourceTLB := 0, seid := c4Ring.seid },
               { id := c4Ring.idCounter + 1, src := some 0, dst := none,
                 trafficBytes := 64, pid := 0, virtualAddr := 4096, ttl := 4,
                 direction := "counterclockwise", sourceTLB := 0,
                 seid := c4Ring.seid }] },
        idCounter := c4Ring.idCounter + 2 } :=
  initiateProbing_appends_two c4Ring 0 4096 (c4Ring.tlbs.get ⟨0, by decide⟩) rfl

/-- The concrete L1-TLB of the C9 counterexample: empty probe queue. -/
def c9Tlb : L1TLBState :=
  { id := 2, numSets := 1, sets := [{ ways := [zeroPage] }], prefetchBuffer := [],
    probeQueue := [], mshr := [], topPort := { buf := [], cap := 4 },
    bottomPort := { buf := [], cap := 4 }, lowModule := 9 }

/-- Nine successive InitiateProbing invocations on one TLB (one per distinct
missing address, as the source performs per new MSHR key). -/
def c9Iterated : L1TLBState × Nat :=
  (List.range 9).foldl (fun p v => initiateProbing 0 p.2 p.1 (4096 * v)) (c9Tlb, 0)

/-- C9 counterexample: the ProbeQueue is not bounded by 16 — after nine
InitiateProbing calls it holds 18 pending probe requests. -/
theorem c9_counterexample :
    c9Iterated.1.probeQueue.length = 18 ∧ ¬ c9Iterated.1.probeQueue.length ≤ 16 := by
  refine ⟨by decide, by decide⟩

/-- C9 amended: every append to the ProbeQueue is unconditional — the
16-entry figure is only the initial capacity hint of the Go slice.
InitiateProbing always grows the queue by exactly two, and the forwarding
step of ReceiveProbeRequest (set miss and prefetch miss) always grows the
receiving TLB's queue by exactly one, with no bound check on either path. -/
theorem probeQueue_appends_unconditional :
    (∀ (seid c : Nat) (t : L1TLBState) (vaddr : Nat),
       (initiateProbing seid c t vaddr).1.probeQueue.length =
         t.probeQueue.length + 2) ∧
    (∀ (s : RingState) (i : Nat) (req : ProbeRequest) (t : L1TLBState)
       (cs : CacheSet),
       s.tlbs.get? i = some t →
       t.sets.get? (vAddrToSetID t req.virtualAddr) = some cs →
       setProbeHit cs req.pid req.virtualAddr = none →
       prefetchFind t.prefetchBuffer req.pid req.virtualAddr = none →
       ReceiveProbeRequest s i req =
         .ok { s with
               tlbs := s.tlbs.set i
                 { t with probeQueue := t.probeQueue ++ [req] } }) := by
  constructor
  · intro seid c t vaddr
    simp [initiateProbing]
  · intro s i req t cs ht hs hmiss hpf
    simp only [ReceiveProbeRequest, ht, hs, hmiss, hpf, modifyTLB]

/-- The concrete ring of the C9 witness: a forwarded probe for an address
held nowhere lands in TLB 1's queue. -/
def c9Ring : RingState :=
  { numTLBs := 16, seid := 0,
    tlbs := [{ id := 0, numSets := 1, sets := [{ ways := [zeroPage] }],
               prefetchBuffer := [], probeQueue := [], mshr := [],
               topPort := { buf := [], cap := 4 },
               bottomPort := { buf := [], cap := 4 }, lowModule := 9 },
             { id := 1, numSets := 1, sets := [{ ways := [zeroPage] }],
               prefetchBuffer := [], probeQueue := [], mshr := [],
               topPort := { buf := [], cap := 4 },
               bottomPort := { buf := [], cap := 4 }, lowModule := 9 }],
    conn := [], idCounter := 0 }

/-- The concrete probe of the C9 witness. -/
def c9Probe : ProbeRequest :=
  { id := 40, src := some 0, dst := some 1, trafficBytes := 64, pid := 0,
    virtualAddr := 4096, ttl := 14, direction := "clockwise", sourceTLB := 0,
    seid := 0 }

/-- Witness for probeQueue_appends_unconditional at concrete inputs. -/
theorem probeQueue_appends_unconditional_witness :
    (initiateProbing 0 0 c9Tlb 4096).1.probeQueue.length =
      c9Tlb.probeQueue.length + 2 ∧
    ReceiveProbeRequest c9Ring 1 c9Probe =
      .ok { c9Ring with
            tlbs := c9Ring.tlbs.set 1
              { (c9Ring.tlbs.get ⟨1, by decide⟩) with probeQueue :=
                  (c9Ring.tlbs.get ⟨1, by decide⟩).probeQueue ++ [c9Probe] } } :=
  ⟨probeQueue_appends_unconditional.1 0 0 c9Tlb 4096,
   probeQueue_appends_unconditional.2 c9Ring 1 c9Probe
     (c9Ring.tlbs.get ⟨1, by decide⟩) { ways := [zeroPage] }
     (by decide) (by decide) (by decide) (by decide)⟩

/-- C5: SendProbeRequest is a two-case function of the TTL.  With TTL = 0
the probe dies here and NotifyMiss(req.VirtualAddr) runs on the originator
TLBs[req.SourceTLB]; with TTL > 0 the TTL is decremented by one and the
message is handed to the ring connection addressed to the next hop —
(id+1) mod 16 clockwise and (id-1+16) mod 16 counterclockwise on the
16-TLB ring. -/
theorem sendProbeRequest_cases :
    (∀ (s : RingState) (tlbID : Nat) (req : ProbeRequest),
       req.ttl = 0 → req.sourceTLB < s.tlbs.length →
       SendProbeRequest s tlbID req =
         .ok (notifyMissAt s req.sourceTLB req.virtualAddr)) ∧
    (∀ (s : RingState) (tlbID : Nat) (req : ProbeRequest),
       s.numTLBs = 16 → 0 < req.ttl →
       (req.direction = "clockwise" →
          SendProbeRequest s tlbID req =
            .ok { s with
                  conn := s.conn ++
                    [RingMsg.probeReq
                      { req with ttl := req.ttl - 1, src := some tlbID,
                                 dst := some ((tlbID + 1) % 16),
                                 trafficBytes := 64 }] }) ∧
       (req.direction = "counterclockwise" →
          ∃ nextID : Nat, (nextID : Int) = ((tlbID : Int) - 1 + 16) % 16 ∧
            SendProbeRequest s tlbID req =
              .ok { s with
                    conn := s.conn ++
                      [RingMsg.probeReq
                        { req with ttl := req.ttl - 1, src := some tlbID,
                                   dst := some nextID,
                                   trafficBytes := 64 }] })) := by
  constructor
  · intro s tlbID req httl hsrc
    simp [SendProbeRequest, httl, hsrc]
  · intro s tlbID req hn httl
    constructor
    · intro hdir
      simp [SendProbeRequest, GetNextTLB, hdir, hn, httl]
    · intro hdir
      refine ⟨(tlbID + 16 - 1) % 16, by omega, ?_⟩
      simp [SendProbeRequest, GetNextTLB, hdir, hn, httl]

/-- One L1-TLB of the C5 witness ring. -/
def c5Tlb (k : Nat) : L1TLBState :=
  { id := k, numSets := 1, sets := [{ ways := [zeroPage] }], prefetchBuffer := [],
    probeQueue := [], mshr := [], topPort := { buf := [], cap := 4 },
    bottomPort := { buf := [], cap := 4 }, lowModule := 9 }

/-- The concrete 16-TLB ring of the C5 witness. -/
def c5Ring : RingState :=
  { numTLBs := 16, seid := 0, tlbs := (List.range 16).map c5Tlb,
    conn := [], idCounter := 0 }

/-- A concrete expired probe (TTL 0) originated by TLB 2. -/
def c5ProbeZero : ProbeRequest :=
  { id := 70, src := some 9, dst := some 10, trafficBytes := 64, pid := 0,
    virtualAddr := 4096, ttl := 0, direction := "clockwise", sourceTLB := 2,
    seid := 0 }

/-- A concrete live clockwise probe. -/
def c5ProbeCw : ProbeRequest :=
  { id := 71, src := some 2, dst := some 3, trafficBytes := 64, pid := 0,
    virtualAddr := 4096, ttl := 13, direction := "clockwise", sourceTLB := 2,
    seid := 0 }

/-- A concrete live counterclockwise probe. -/
def c5ProbeCcw : ProbeRequest :=
  { id := 72, src := some 6, dst := some 5, trafficBytes := 64, pid := 0,
    virtualAddr := 4096, ttl := 3, direction := "counterclockwise",
    sourceTLB := 2, seid := 0 }

/-- Witness for sendProbeRequest_cases at concrete probes on the 16-TLB
ring: an expired probe triggers NotifyMiss on its originator, live probes
are decremented and forwarded to the computed neighbour. -/
theorem sendProbeRequest_cases_witness :
    SendProbeRequest c5Ring 9 c5ProbeZero = .ok (notifyMissAt c5Ring 2 4096) ∧
    SendProbeRequest c5Ring 3 c5ProbeCw =
      .ok { c5Ring with
            conn := c5Ring.conn ++
              [RingMsg.probeReq
                { c5ProbeCw with ttl := c5ProbeCw.ttl - 1, src := some 3,
                                 dst := some ((3 + 1) % 16),
                                 trafficBytes := 64 }] } ∧
    (∃ nextID : Nat, (nextID : Int) = ((5 : Int) - 1 + 16) % 16 ∧
       SendProbeRequest c5Ring 5 c5ProbeCcw =
         .ok { c5Ring with
               conn := c5Ring.conn ++
                 [RingMsg.probeReq
                   { c5ProbeCcw with ttl := c5ProbeCcw.ttl - 1, src := some 5,
                                     dst := some nextID,
                                     trafficBytes := 64 }] }) :=
  ⟨sendProbeRequest_cases.1 c5Ring 9 c5ProbeZero rfl (by decide),
   (sendProbeRequest_cases.2 c5Ring 3 c5ProbeCw rfl (by decide)).1 rfl,
   (sendProbeRequest_cases.2 c5Ring 5 c5ProbeCcw rfl (by decide)).2 rfl⟩

/-- C8 amended: the two GMMU ports abort fatally with a diagnostic naming
the offending type on any unsupported message, but the ring dispatcher does
not: DeliverMessage returns false for a message that is neither a
ProbeRequest nor a ProbeResponse, leaving the ring unchanged and raising no
fault. -/
theorem unsupported_message_dispatch :
    (∀ (s : RingState) (name : String),
       DeliverMessage s (.other name) = .ok (s, false)) ∧
    (∀ (s : GMMU) (m : GMsg) (rest : List GMsg),
       s.topIncoming = m :: rest → (∀ r, m ≠ GMsg.req r) →
       s.walkingTranslations.length < s.maxRequestsInFlight →
       parseFromTop s = .error (.unexpectedMessageType m.typeName)) ∧
    (∀ (s : GMMU) (m : GMsg) (rest : List GMsg),
       s.bottomIncoming = m :: rest → (∀ r, m ≠ GMsg.rsp r) →
       canSend s 1 →
       fetchFromBottom s = .error (.unexpectedMessageType m.typeName)) := by
  refine ⟨fun s name => rfl, ?_, ?_⟩
  · intro s m rest htop hnr hlt
    simp only [parseFromTop]
    rw [if_neg (by omega), htop]
    cases m with
    | req r => exact absurd rfl (hnr r)
    | rsp r => rfl
    | other name => rfl
  · intro s m rest hbot hnr hcs
    simp only [fetchFromBottom]
    rw [if_pos hcs, hbot]
    cases m with
    | req r => rfl
    | rsp r => exact absurd rfl (hnr r)
    | other name => rfl

/-- The concrete ring of the C8 scenario. -/
def c8Ring : RingState :=
  { numTLBs := 16, seid := 0, tlbs := [], conn := [], idCounter := 0 }

/-- C8 counterexample: a message of an unsupported type delivered to the
ring dispatcher does not abort the simulation — DeliverMessage silently
returns false with the ring unchanged, contradicting the claim that every
component aborts fatally on unsupported messages. -/
theorem c8_counterexample :
    DeliverMessage c8Ring (.other "*vm.TranslationReq") = .ok (c8Ring, false) := rfl

/-- The concrete GMMU of the C8 witness: an unsupported message heads both
receive buffers. -/
def c8Gmmu : GMMU :=
  { deviceID := 2, latency := 10, maxRequestsInFlight := 16, lowModule := 9,
    topIncoming := [GMsg.rsp { id := 1, rspTo := 0, page := zeroPage, src := 0, dst := 0 }],
    bottomIncoming := [GMsg.req { id := 2, pid := 0, vaddr := 0, deviceID := 0, src := 0, dst := 0 }],
    topOut := [], topOutCap := 4096, topSenderBuf := [], topSenderCap := 4096,
    bottomOut := [], bottomOutCap := 4096, pageTable := [],
    walkingTranslations := [], remoteMemReqs := [], toRemoveFromPTW := [],
    cuckooFilter := { keys := [], fp := fun _ => false,
                      insertOk := fun _ _ => true },
    idCounter := 0 }

/-- Witness for unsupported_message_dispatch at concrete states. -/
theorem unsupported_message_dispatch_witness :
    DeliverMessage c8Ring (.other "*mem.ReadReq") = .ok (c8Ring, false) ∧
    parseFromTop c8Gmmu = .error (.unexpectedMessageType "*vm.TranslationRsp") ∧
    fetchFromBottom c8Gmmu = .error (.unexpectedMessageType "*vm.TranslationReq") :=
  ⟨unsupported_message_dispatch.1 c8Ring "*mem.ReadReq",
   unsupported_message_dispatch.2.1 c8Gmmu
     (GMsg.rsp { id := 1, rspTo := 0, page := zeroPage, src := 0, dst := 0 }) []
     rfl (fun r h => GMsg.noConfusion h) (by decide),
   unsupported_message_dispatch.2.2 c8Gmmu
     (GMsg.req { id := 2, pid := 0, vaddr := 0, deviceID := 0, src := 0, dst := 0 }) []
     rfl (fun r h => GMsg.noConfusion h) (by decide)⟩

/-- C6: parseFromTop on a TranslationRequest whose key passes the Cuckoo
filter, is present in the page table, and whose page is owned locally:
if the top sender can accept a message, the TranslationResponse carrying
that page is enqueued in the same tick and the walking list is untouched;
if the top sender is full, a new walking transaction with
cycleLeft = latency is started instead, so the request is not dropped. -/
theorem parseFromTop_fastpath (s : GMMU) (r : TranslationReq) (rest : List GMsg)
    (page : Page)
    (htop : s.topIncoming = GMsg.req r :: rest)
    (hflt : cuckooLookup s.cuckooFilter (encodeVAddrPID r.vaddr r.pid) = true)
    (hpt : ptFind s.pageTable r.pid r.vaddr = some page)
    (hdev : page.deviceID = s.deviceID)
    (hlt : s.walkingTranslations.length < s.maxRequestsInFlight) :
    (canSend s 1 →
       parseFromTop s = .ok ({ s with
         topIncoming := rest,
         topSenderBuf := s.topSenderBuf ++
           [{ id := s.idCounter, rspTo := r.id, page := page,
              src := gmmuTopPortTag, dst := r.src }],
         idCounter := s.idCounter + 1 }, true)) ∧
    (¬ canSend s 1 →
       parseFromTop s = .ok ({ s with
         topIncoming := rest,
         walkingTranslations := s.walkingTranslations ++
           [{ req := r, page := zeroPage, cycleLeft := s.latency }] }, true)) := by
  constructor
  · intro hcs
    unfold parseFromTop
    rw [if_neg (by omega), htop]
    simp only [hflt, hpt, sendTopRsp, startWalking]
    rw [if_pos hdev, if_pos (show canSend { s with topIncoming := rest } 1 from hcs)]
    simp
  · intro hcs
    unfold parseFromTop
    rw [if_neg (by omega), htop]
    simp only [hflt, hpt, sendTopRsp, startWalking]
    rw [if_pos hdev, if_neg (show ¬ canSend { s with topIncoming := rest } 1 from hcs)]
    simp

/-- The concrete GMMU of the C6 witness: a fast-path request at the head of
the top port, the key filtered in, the page local. -/
def c6Page : Page :=
  { pid := 3, vaddr := 8192, paddr := 12288, deviceID := 2, valid := true }

/-- The concrete fast-path request of the C6 witness. -/
def c6Req : TranslationReq :=
  { id := 21, pid := 3, vaddr := 8192, deviceID := 2, src := 7, dst := 0 }

/-- The C6 witness GMMU with room on the top sender. -/
def c6Gmmu : GMMU :=
  { deviceID := 2, latency := 10, maxRequestsInFlight := 16, lowModule := 9,
    topIncoming := [GMsg.req c6Req], bottomIncoming := [],
    topOut := [], topOutCap := 4096, topSenderBuf := [], topSenderCap := 4096,
    bottomOut := [], bottomOutCap := 4096, pageTable := [c6Page],
    walkingTranslations := [], remoteMemReqs := [], toRemoveFromPTW := [],
    cuckooFilter := { keys := [encodeVAddrPID 8192 3], fp := fun _ => false,
                      insertOk := fun _ _ => true },
    idCounter := 50 }

/-- The C6 witness GMMU with a full top sender (capacity 0). -/
def c6GmmuFull : GMMU := { c6Gmmu with topSenderCap := 0 }

/-- Witness for parseFromTop_fastpath at the two concrete states. -/
theorem parseFromTop_fastpath_witness :
    parseFromTop c6Gmmu = .ok ({ c6Gmmu with
      topIncoming := [],
      topSenderBuf := c6Gmmu.topSenderBuf ++
        [{ id := c6Gmmu.idCounter, rspTo := c6Req.id, page := c6Page,
           src := gmmuTopPortTag, dst := c6Req.src }],
      idCounter := c6Gmmu.idCounter + 1 }, true) ∧
    parseFromTop c6GmmuFull = .ok ({ c6GmmuFull with
      topIncoming := [],
      walkingTranslations := c6GmmuFull.walkingTranslations ++
        [{ req := c6Req, page := zeroPage, cycleLeft := c6GmmuFull.latency }] }, true) :=
  ⟨(parseFromTop_fastpath c6Gmmu c6Req [] c6Page rfl (by decide) (by decide)
      (by decide) (by decide)).1 (by decide),
   (parseFromTop_fastpath c6GmmuFull c6Req [] c6Page rfl (by decide) (by decide)
      (by decide) (by decide)).2 (by decide)⟩

/-- C10: handleTranslationRsp presupposes that the bottom response answers
a recorded remote request.  When response.Page.VAddr is a key of
remoteMemReqs, the entry is removed, the page table is updated with the
returned page, the key is inserted into the Cuckoo filter (with one
Reset-and-retry on insert failure, as embedded in insertWithRetry), and a
response is enqueued to the stored requester; when the key is absent the
looked-up zero-value transaction has a nil req and the dereference of
reqTransaction.req.Src faults. -/
theorem handleTranslationRsp_cases (s : GMMU) (response : TranslationRsp) :
    (∀ t, rmGet s.remoteMemReqs response.page.vaddr = some t →
       handleTranslationRsp s response = .ok ({ s with
         pageTable := ptUpdate s.pageTable response.page,
         cuckooFilter := insertWithRetry s.cuckooFilter
           (encodeVAddrPID response.page.vaddr response.page.pid),
         topSenderBuf := s.topSenderBuf ++
           [{ id := s.idCounter, rspTo := response.id, page := response.page,
              src := gmmuTopPortTag, dst := t.req.src }],
         idCounter := s.idCounter + 1,
         remoteMemReqs := rmErase s.remoteMemReqs response.page.vaddr }, true)) ∧
    (rmGet s.remoteMemReqs response.page.vaddr = none →
       handleTranslationRsp s response = .error .nilDereference) := by
  constructor
  · intro t h
    simp only [handleTranslationRsp, h]
  · intro h
    simp only [handleTranslationRsp, h]

/-- The stored remote transaction of the C10 witness. -/
def c10Tx : Transaction :=
  { req := { id := 5, pid := 0, vaddr := 4096, deviceID := 1, src := 7, dst := 8 },
    page := zeroPage, cycleLeft := 0 }

/-- The bottom response of the C10 witness. -/
def c10Rsp : TranslationRsp :=
  { id := 99, rspTo := 60,
    page := { pid := 0, vaddr := 4096, paddr := 8192, deviceID := 2, valid := true },
    src := 1, dst := 2 }

/-- The C10 witness GMMU with the remote request recorded. -/
def c10Gmmu : GMMU :=
  { deviceID := 2, latency := 10, maxRequestsInFlight := 16, lowModule := 9,
    topIncoming := [], bottomIncoming := [],
    topOut := [], topOutCap := 4096, topSenderBuf := [], topSenderCap := 4096,
    bottomOut := [], bottomOutCap := 4096, pageTable := [],
    walkingTranslations := [], remoteMemReqs := [(4096, c10Tx)],
    toRemoveFromPTW := [],
    cuckooFilter := { keys := [], fp := fun _ => false,
                      insertOk := fun _ _ => true },
    idCounter := 80 }

/-- The C10 witness GMMU without the recorded remote request. -/
def c10GmmuEmpty : GMMU := { c10Gmmu with remoteMemReqs := [] }

/-- Witness for handleTranslationRsp_cases at the two concrete states. -/
theorem handleTranslationRsp_cases_witness :
    handleTranslationRsp c10Gmmu c10Rsp = .ok ({ c10Gmmu with
      pageTable := ptUpdate c10Gmmu.pageTable c10Rsp.page,
      cuckooFilter := insertWithRetry c10Gmmu.cuckooFilter
        (encodeVAddrPID c10Rsp.page.vaddr c10Rsp.page.pid),
      topSenderBuf := c10Gmmu.topSenderBuf ++
        [{ id := c10Gmmu.idCounter, rspTo := c10Rsp.id, page := c10Rsp.page,
           src := gmmuTopPortTag, dst := c10Tx.req.src }],
      idCounter := c10Gmmu.idCounter + 1,
      remoteMemReqs := rmErase c10Gmmu.remoteMemReqs c10Rsp.page.vaddr }, true) ∧
    handleTranslationRsp c10GmmuEmpty c10Rsp = .error .nilDereference :=
  ⟨(handleTranslationRsp_cases c10Gmmu c10Rsp).1 c10Tx (by decide),
   (handleTranslationRsp_cases c10GmmuEmpty c10Rsp).2 (by decide)⟩

/-- Helper: the (RspTo, Page) projection of the top port after drainLoop
when the port has room for every pending request: each queued request r
receives a response with RspTo = r.id carrying the installed page. -/
theorem drainLoop_proj_of_room (tag : Nat) (page : Page) :
    ∀ (reqs : List TranslationReq) (port : SimplePort TranslationRsp) (c : Nat),
      port.buf.length + reqs.length ≤ port.cap →
      (drainLoop tag page reqs port c).1.buf.map (fun m => (m.rspTo, m.page)) =
        port.buf.map (fun m => (m.rspTo, m.page)) ++
          reqs.map (fun r => (r.id, page)) := by
  intro reqs
  induction reqs with
  | nil => intro port c _; simp [drainLoop]
  | cons r rest ih =>
    intro port c h
    have hlt : port.buf.length < port.cap := by
      simp only [List.length_cons] at h; omega
    simp only [drainLoop, portSend, if_pos hlt]
    rw [ih { port with buf := port.buf ++
          [{ id := c, rspTo := r.id, page := page, src := tag, dst := r.src }] }
        (c + 1)
        (by simp only [List.length_append, List.length_cons, List.length_nil,
              List.length_cons] at h ⊢; omega)]
    simp

/-- C2 amended: on the ring-probe hit, GMMU fast-path and local page-walk
paths the TranslationResponse carries RspTo = the original client request's
id; on the remote-escalation path through the low module,
handleTranslationRsp instead carries RspTo = the bottom response's id, not
the stored original request's id. -/
theorem translation_rspTo_paths :
    (∀ (s : GMMU) (r : TranslationReq) (rest : List GMsg) (page : Page),
       s.topIncoming = GMsg.req r :: rest →
       cuckooLookup s.cuckooFilter (encodeVAddrPID r.vaddr r.pid) = true →
       ptFind s.pageTable r.pid r.vaddr = some page →
       page.deviceID = s.deviceID →
       s.walkingTranslations.length < s.maxRequestsInFlight →
       canSend s 1 →
       ∃ out, parseFromTop s = .ok out ∧
         out.1.topSenderBuf = s.topSenderBuf ++
           [{ id := s.idCounter, rspTo := r.id, page := page,
              src := gmmuTopPortTag, dst := r.src }]) ∧
    (∀ (s : GMMU) (i : Nat) (w : Transaction),
       canSend s 1 →
       s.walkingTranslations.get? i = some w →
       (doPageWalkHit s i).1.topSenderBuf = s.topSenderBuf ++
         [{ id := s.idCounter, rspTo := w.req.id, page := w.page,
            src := gmmuTopPortTag, dst := w.req.src }]) ∧
    (∀ (s : RingState) (i : Nat) (rsp : ProbeResponse) (t : L1TLBState)
       (page : Page) (cs : CacheSet) (entry : MSHREntry),
       s.tlbs.get? i = some t →
       rsp.page = some page →
       page.valid = true →
       t.sets.get? (vAddrToSetID t rsp.virtualAddr) = some cs →
       cs.ways.isEmpty = false →
       mshrQuery t.mshr page.pid rsp.virtualAddr = some entry →
       t.topPort.buf.length + entry.requests.length ≤ t.topPort.cap →
       ∃ s', ReceiveProbeResponse s i rsp = .ok s' ∧
         (s'.tlbs.get? i).map
             (fun u => u.topPort.buf.map (fun m => (m.rspTo, m.page))) =
           some (t.topPort.buf.map (fun m => (m.rspTo, m.page)) ++
                 entry.requests.map (fun r => (r.id, page)))) ∧
    (∀ (s : GMMU) (response : TranslationRsp) (t : Transaction),
       rmGet s.remoteMemReqs response.page.vaddr = some t →
       ∃ out, handleTranslationRsp s response = .ok out ∧
         out.1.topSenderBuf = s.topSenderBuf ++
           [{ id := s.idCounter, rspTo := response.id, page := response.page,
              src := gmmuTopPortTag, dst := t.req.src }]) := by
  refine ⟨?_, ?_, ?_, ?_⟩
  · intro s r rest page htop hflt hpt hdev hlt hcs
    unfold parseFromTop
    rw [if_neg (by omega), htop]
    simp only [hflt, hpt, sendTopRsp]
    rw [if_pos hdev, if_pos (show canSend { s with topIncoming := rest } 1 from hcs)]
    rw [if_pos trivial]
    exact ⟨_, rfl, rfl⟩
  · intro s i w hcs hw
    simp only [doPageWalkHit, if_pos hcs, hw]
  · intro s i rsp t page cs entry ht hpage hvalid hset hne hq hroom
    have hi : i < s.tlbs.length := by
      rcases List.get?_eq_some.1 ht with ⟨h, _⟩
      exact h
    have hev : setEvict cs = some 0 := by simp [setEvict, hne]
    unfold ReceiveProbeResponse
    simp only [ht, hpage, hvalid, if_true, hset, hev, hq]
    refine ⟨_, rfl, ?_⟩
    rw [List.get?_set_eq_of_lt _ (by simpa using hi)]
    exact congrArg some
      (drainLoop_proj_of_room t.id page entry.requests t.topPort s.idCounter hroom)
  · intro s response t h
    simp only [handleTranslationRsp, h]
    exact ⟨_, rfl, rfl⟩

/-- The stored remote transaction of the C2 counterexample: the original
client request has id 5. -/
def c2Tx : Transaction :=
  { req := { id := 5, pid := 0, vaddr := 4096, deviceID := 1, src := 7, dst := 8 },
    page := zeroPage, cycleLeft := 0 }

/-- The bottom response of the C2 counterexample: its own id is 99. -/
def c2Rsp : TranslationRsp :=
  { id := 99, rspTo := 60,
    page := { pid := 0, vaddr := 4096, paddr := 8192, deviceID := 2, valid := true },
    src := 1, dst := 2 }

/-- The C2 counterexample GMMU with the remote request recorded. -/
def c2Gmmu : GMMU :=
  { deviceID := 2, latency := 10, maxRequestsInFlight := 16, lowModule := 9,
    topIncoming := [], bottomIncoming := [],
    topOut := [], topOutCap := 4096, topSenderBuf := [], topSenderCap := 4096,
    bottomOut := [], bottomOutCap := 4096, pageTable := [],
    walkingTranslations := [], remoteMemReqs := [(4096, c2Tx)],
    toRemoveFromPTW := [],
    cuckooFilter := { keys := [], fp := fun _ => false,
                      insertOk := fun _ _ => true },
    idCounter := 80 }

/-- C2 counterexample: on the remote-escalation path the response sent
upstream carries RspTo = 99, the id of the bottom response, although the
stored original client request has id 5 — the claim fails on this path. -/
theorem c2_counterexample :
    c2Gmmu.remoteMemReqs.map (fun kv => kv.2.req.id) = [5] ∧
    (handleTranslationRsp c2Gmmu c2Rsp).toOption.map
        (fun p => p.1.topSenderBuf.map (fun m => m.rspTo)) = some [99] ∧
    (99 : Nat) ≠ 5 := by
  refine ⟨by decide, by decide, by decide⟩

/-- The fast-path page of the C2 witness. -/
def c2aPage : Page :=
  { pid := 1, vaddr := 12288, paddr := 20480, deviceID := 4, valid := true }

/-- The fast-path request of the C2 witness. -/
def c2aReq : TranslationReq :=
  { id := 33, pid := 1, vaddr := 12288, deviceID := 4, src := 11, dst := 0 }

/-- The fast-path GMMU of the C2 witness. -/
def c2aGmmu : GMMU :=
  { deviceID := 4, latency := 10, maxRequestsInFlight := 16, lowModule := 9,
    topIncoming := [GMsg.req c2aReq], bottomIncoming := [],
    topOut := [], topOutCap := 4096, topSenderBuf := [], topSenderCap := 4096,
    bottomOut := [], bottomOutCap := 4096, pageTable := [c2aPage],
    walkingTranslations := [], remoteMemReqs := [], toRemoveFromPTW := [],
    cuckooFilter := { keys := [encodeVAddrPID 12288 1], fp := fun _ => false,
                      insertOk := fun _ _ => true },
    idCounter := 60 }

/-- The local-walk transaction of the C2 witness. -/
def c2bTx : Transaction :=
  { req := { id := 44, pid := 0, vaddr := 16384, deviceID := 4, src := 12, dst := 0 },
    page := { pid := 0, vaddr := 16384, paddr := 24576, deviceID := 4, valid := true },
    cycleLeft := 0 }

/-- The local-walk GMMU of the C2 witness. -/
def c2bGmmu : GMMU :=
  { c2aGmmu with topIncoming := [], walkingTranslations := [c2bTx], idCounter := 61 }

/-- The ring-hit page of the C2 witness. -/
def c2cPage : Page :=
  { pid := 0, vaddr := 4096, paddr := 8192, deviceID := 1, valid := true }

/-- The pending client request of the C2 witness ring scenario. -/
def c2cReq : TranslationReq :=
  { id := 55, pid := 0, vaddr := 4096, deviceID := 1, src := 13, dst := 0 }

/-- The MSHR entry of the C2 witness ring scenario. -/
def c2cEntry : MSHREntry :=
  { pid := 0, vaddr := 4096, requests := [c2cReq], reqToBottom := none }

/-- The L1-TLB of the C2 witness ring scenario. -/
def c2cTlb : L1TLBState :=
  { id := 0, numSets := 1, sets := [{ ways := [zeroPage] }], prefetchBuffer := [],
    probeQueue := [], mshr := [c2cEntry], topPort := { buf := [], cap := 4 },
    bottomPort := { buf := [], cap := 4 }, lowModule := 9 }

/-- The ring of the C2 witness ring scenario. -/
def c2cRing : RingState :=
  { numTLBs := 16, seid := 0, tlbs := [c2cTlb], conn := [], idCounter := 62 }

/-- The probe response of the C2 witness ring scenario. -/
def c2cPrb : ProbeResponse :=
  { id := 63, src := some 1, dst := some 0, trafficBytes := 128,
    virtualAddr := 4096, page := some c2cPage, sourceTLB := 0, seid := 0 }

/-- The remote-path GMMU of the C2 witness. -/
def c2dGmmu : GMMU := { c2Gmmu with idCounter := 70 }

/-- The remote-path bottom response of the C2 witness. -/
def c2dRsp : TranslationRsp := { c2Rsp with id := 71 }

/-- Witness for translation_rspTo_paths: all four paths exercised at
concrete states. -/
theorem translation_rspTo_paths_witness :
    (∃ out, parseFromTop c2aGmmu = .ok out ∧
       out.1.topSenderBuf = c2aGmmu.topSenderBuf ++
         [{ id := c2aGmmu.idCounter, rspTo := c2aReq.id, page := c2aPage,
            src := gmmuTopPortTag, dst := c2aReq.src }]) ∧
    ((doPageWalkHit c2bGmmu 0).1.topSenderBuf = c2bGmmu.topSenderBuf ++
       [{ id := c2bGmmu.idCounter, rspTo := c2bTx.req.id, page := c2bTx.page,
          src := gmmuTopPortTag, dst := c2bTx.req.src }]) ∧
    (∃ s', ReceiveProbeResponse c2cRing 0 c2cPrb = .ok s' ∧
       (s'.tlbs.get? 0).map
           (fun u => u.topPort.buf.map (fun m => (m.rspTo, m.page))) =
         some (c2cTlb.topPort.buf.map (fun m => (m.rspTo, m.page)) ++
               c2cEntry.requests.map (fun r => (r.id, c2cPage)))) ∧
    (∃ out, handleTranslationRsp c2dGmmu c2dRsp = .ok out ∧
       out.1.topSenderBuf = c2dGmmu.topSenderBuf ++
         [{ id := c2dGmmu.idCounter, rspTo := c2dRsp.id, page := c2dRsp.page,
            src := gmmuTopPortTag, dst := c2Tx.req.src }]) :=
  ⟨translation_rspTo_paths.1 c2aGmmu c2aReq [] c2aPage rfl (by decide) (by decide)
     (by decide) (by decide) (by decide),
   translation_rspTo_paths.2.1 c2bGmmu 0 c2bTx (by decide) (by decide),
   translation_rspTo_paths.2.2.1 c2cRing 0 c2cPrb c2cTlb c2cPage
     { ways := [zeroPage] } c2cEntry rfl rfl (by decide) (by decide) (by decide)
     (by decide) (by decide),
   translation_rspTo_paths.2.2.2 c2dGmmu c2dRsp c2Tx (by decide)⟩

/-- Helper: the top-sender drain step touches neither the walking list nor
the in-flight budget. -/
theorem topSenderTick_fields (s : GMMU) :
    (topSenderTick s).1.walkingTranslations = s.walkingTranslations ∧
    (topSenderTick s).1.maxRequestsInFlight = s.maxRequestsInFlight := by
  unfold topSenderTick
  split
  · exact ⟨rfl, rfl⟩
  · split
    · exact ⟨rfl, rfl⟩
    · exact ⟨rfl, rfl⟩

/-- Helper: parseFromTop preserves the walking-list bound — it stalls at the
budget and otherwise grows the list by at most one below the budget. -/
theorem parseFromTop_bound (s s' : GMMU) (b : Bool)
    (h : parseFromTop s = .ok (s', b))
    (hle : s.walkingTranslations.length ≤ s.maxRequestsInFlight) :
    s'.walkingTranslations.length ≤ s'.maxRequestsInFlight := by
  unfold parseFromTop at h
  by_cases hge : s.walkingTranslations.length ≥ s.maxRequestsInFlight
  · rw [if_pos hge] at h
    simp only [Except.ok.injEq, Prod.mk.injEq] at h
    rw [← h.1]; exact hle
  · rw [if_neg hge] at h
    have hlt : s.walkingTranslations.length < s.maxRequestsInFlight := by omega
    cases hti : s.topIncoming with
    | nil =>
      rw [hti] at h
      simp only [Except.ok.injEq, Prod.mk.injEq] at h
      rw [← h.1]; exact hle
    | cons m rest =>
      rw [hti] at h
      cases m with
      | rsp r => simp at h
      | other n => simp at h
      | req r =>
        simp only [sendTopRsp, startWalking] at h
        repeat' split at h
        all_goals simp only [Except.ok.injEq, Prod.mk.injEq] at h
        all_goals rw [← h.1]
        all_goals simp only [List.length_append, List.length_cons, List.length_nil]
        all_goals omega

/-- Helper: one iteration of the page-walk loop preserves the length of the
walking list and the configuration fields. -/
theorem processIndex_fields (s : GMMU) (i : Nat) :
    (processIndex s i).1.walkingTranslations.length = s.walkingTranslations.length ∧
    (processIndex s i).1.maxRequestsInFlight = s.maxRequestsInFlight ∧
    (processIndex s i).1.pageTable = s.pageTable ∧
    (processIndex s i).1.deviceID = s.deviceID ∧
    (processIndex s i).1.topSenderCap = s.topSenderCap := by
  refine ⟨?_, ?_, ?_, ?_, ?_⟩ <;>
    (simp only [processIndex, finalizePageWalk, doPageWalkHit, processRemoteMemReq]
     repeat' (first | split | split_ifs)) <;>
    simp_all [List.length_set]

/-- Helper: the whole per-entry pass preserves the length of the walking
list and the configuration fields. -/
theorem walkIndices_fields :
    ∀ (idxs : List Nat) (s : GMMU),
      (walkIndices s idxs).1.walkingTranslations.length =
        s.walkingTranslations.length ∧
      (walkIndices s idxs).1.maxRequestsInFlight = s.maxRequestsInFlight := by
  intro idxs
  induction idxs with
  | nil => intro s; exact ⟨rfl, rfl⟩
  | cons i rest ih =>
    intro s
    have hp := processIndex_fields s i
    have hr := ih (processIndex s i).1
    unfold walkIndices
    exact ⟨by rw [hr.1, hp.1], by rw [hr.2, hp.2.1]⟩

/-- Helper: walkPageTable never grows the walking list (the pass preserves
its length and compaction only drops entries) and keeps the budget. -/
theorem walkPageTable_bound (s : GMMU) :
    (walkPageTable s).1.walkingTranslations.length ≤
      s.walkingTranslations.length ∧
    (walkPageTable s).1.maxRequestsInFlight = s.maxRequestsInFlight := by
  have hw := walkIndices_fields (List.range s.walkingTranslations.length) s
  constructor
  · simp only [walkPageTable, List.length_map]
    exact le_trans (le_trans (List.length_filter_le _ _) (le_of_eq List.enum_length))
      (le_of_eq hw.1)
  · simp only [walkPageTable]
    exact hw.2

/-- Helper: handleTranslationRsp touches neither the walking list nor the
budget. -/
theorem handleTranslationRsp_fields (s s' : GMMU) (r : TranslationRsp) (b : Bool)
    (h : handleTranslationRsp s r = .ok (s', b)) :
    s'.walkingTranslations = s.walkingTranslations ∧
    s'.maxRequestsInFlight = s.maxRequestsInFlight := by
  unfold handleTranslationRsp at h
  cases hl : rmGet s.remoteMemReqs r.page.vaddr with
  | none => rw [hl] at h; simp at h
  | some t =>
    rw [hl] at h
    simp only [Except.ok.injEq, Prod.mk.injEq] at h
    rw [← h.1]
    exact ⟨rfl, rfl⟩

/-- Helper: fetchFromBottom touches neither the walking list nor the
budget. -/
theorem fetchFromBottom_fields (s s' : GMMU) (b : Bool)
    (h : fetchFromBottom s = .ok (s', b)) :
    s'.walkingTranslations = s.walkingTranslations ∧
    s'.maxRequestsInFlight = s.maxRequestsInFlight := by
  unfold fetchFromBottom at h
  by_cases hc : canSend s 1
  · rw [if_pos hc] at h
    cases hbi : s.bottomIncoming with
    | nil =>
      simp only [hbi, Except.ok.injEq, Prod.mk.injEq] at h
      rw [← h.1]; exact ⟨rfl, rfl⟩
    | cons m rest =>
      simp only [hbi] at h
      cases m with
      | req r => simp at h
      | other n => simp at h
      | rsp r =>
        exact handleTranslationRsp_fields { s with bottomIncoming := rest } s' r b h
  · rw [if_neg hc] at h
    simp only [Except.ok.injEq, Prod.mk.injEq] at h
    rw [← h.1]; exact ⟨rfl, rfl⟩

/-- C3: in every reachable GMMU state the walking list respects the
in-flight budget — parseFromTop stalls at the budget and no other step
grows the list, so len(walkingTranslations) ≤ maxRequestsInFlight is an
invariant of the ticking component. -/
theorem gmmu_walking_bounded (s : GMMU) (h : GMMUReachable s) :
    s.walkingTranslations.length ≤ s.maxRequestsInFlight := by
  induction h with
  | init cfg => simp [buildGMMU]
  | @tick s0 s' b _ htick ih =>
    cases hp : parseFromTop (topSenderTick s0).1 with
    | error f => rw [show gmmuTick s0 = .error f by simp only [gmmuTick, hp]] at htick; exact absurd htick (by simp)
    | ok r2 =>
      cases hf : fetchFromBottom (walkPageTable r2.1).1 with
      | error f => rw [show gmmuTick s0 = .error f by simp only [gmmuTick, hp, hf]] at htick; exact absurd htick (by simp)
      | ok r4 =>
        simp only [gmmuTick, hp, hf, Except.ok.injEq, Prod.mk.injEq] at htick
        have h1 := topSenderTick_fields s0
        have h2 : r2.1.walkingTranslations.length ≤ r2.1.maxRequestsInFlight :=
          parseFromTop_bound _ _ _ (by rw [hp]) (by rw [h1.1, h1.2]; exact ih)
        have h3 := walkPageTable_bound r2.1
        have h4 := fetchFromBottom_fields _ _ _ (by rw [hf] : fetchFromBottom (walkPageTable r2.1).1 = .ok (r4.1, r4.2))
        rw [← htick.1, h4.1, h4.2, h3.2]
        omega
  | deliverTop m _ ih => exact ih
  | deliverBottom m _ ih => exact ih

/-- The configuration of the C3 witness. -/
def c3Cfg : GMMUConfig :=
  { deviceID := 2, lowModule := 9, maxNumReqInFlight := 16,
    pageWalkingLatency := 10, pageTable := [], fp := fun _ => false,
    insertOk := fun _ _ => true }

/-- Witness for gmmu_walking_bounded at the built initial state. -/
theorem gmmu_walking_bounded_witness :
    (buildGMMU c3Cfg).walkingTranslations.length ≤
      (buildGMMU c3Cfg).maxRequestsInFlight :=
  gmmu_walking_bounded (buildGMMU c3Cfg) (GMMUReachable.init c3Cfg)

/-- Helper: one pass iteration only ever appends to the top-sender buffer. -/
theorem processIndex_topSenderBuf (s : GMMU) (j : Nat) :
    ∃ l, (processIndex s j).1.topSenderBuf = s.topSenderBuf ++ l := by
  simp only [processIndex, finalizePageWalk, doPageWalkHit, processRemoteMemReq]
  repeat' (first | split | split_ifs)
  all_goals first
    | exact ⟨[], (List.append_nil _).symm⟩
    | exact ⟨_, rfl⟩

/-- Helper: one pass iteration either leaves the removal list alone or
appends exactly its own index. -/
theorem processIndex_toRemove (s : GMMU) (j : Nat) :
    (processIndex s j).1.toRemoveFromPTW = s.toRemoveFromPTW ∨
    (processIndex s j).1.toRemoveFromPTW = s.toRemoveFromPTW ++ [j] := by
  simp only [processIndex, finalizePageWalk, doPageWalkHit, processRemoteMemReq]
  repeat' (first | split | split_ifs)
  all_goals first
    | exact Or.inl rfl
    | exact Or.inr rfl

/-- Helper: one pass iteration at index j leaves every other walking entry
untouched. -/
theorem processIndex_get_ne (s : GMMU) (j i : Nat) (hne : i ≠ j) :
    (processIndex s j).1.walkingTranslations.get? i =
      s.walkingTranslations.get? i := by
  simp only [processIndex, finalizePageWalk, doPageWalkHit, processRemoteMemReq]
  repeat' (first | split | split_ifs)
  all_goals first
    | rfl
    | exact List.get?_set_ne _ _ (fun h => hne h.symm)

/-- Helper: with the top sender full, no pass iteration can append to it. -/
theorem processIndex_blocked_buf (s : GMMU) (j : Nat) (hcs : ¬ canSend s 1) :
    (processIndex s j).1.topSenderBuf = s.topSenderBuf := by
  simp only [processIndex, finalizePageWalk, doPageWalkHit, processRemoteMemReq]
  repeat' (first | split | split_ifs)
  all_goals first
    | rfl
    | (simp only [canSend] at *; omega)


/-- The state after a blocked local finish: walkPageTable has refreshed the
entry's page field from the page table and nothing else changed
(finalizePageWalk writes the page before doPageWalkHit checks the top
sender). -/
def walkRefreshState (s : GMMU) (i : Nat) (t : Transaction) : GMMU :=
  { s with
    walkingTranslations := s.walkingTranslations.set i
      { t with page := ptFindD s.pageTable t.req.pid t.req.vaddr } }

/-- The TranslationResponse doPageWalkHit builds for the walking entry t. -/
def walkHitRsp (s : GMMU) (t : Transaction) : TranslationRsp :=
  { id := s.idCounter, rspTo := t.req.id,
    page := ptFindD s.pageTable t.req.pid t.req.vaddr,
    src := gmmuTopPortTag, dst := t.req.src }

/-- The state after an answered local finish: page refreshed, the response
pushed on the top sender, the index marked for removal, one id consumed. -/
def walkAnswerState (s : GMMU) (i : Nat) (t : Transaction) : GMMU :=
  { walkRefreshState s i t with
    topSenderBuf := s.topSenderBuf ++ [walkHitRsp s t],
    toRemoveFromPTW := s.toRemoveFromPTW ++ [i],
    idCounter := s.idCounter + 1 }

/-- Helper: with the top sender full, an index whose entry has finished its
walk and resolves to a local page is only refreshed in place: the page
field is rewritten from the page table, nothing is sent and nothing is
marked for removal. -/
theorem processIndex_blocked_local (s : GMMU) (i : Nat) (t : Transaction)
    (hcs : ¬ canSend s 1)
    (hg : s.walkingTranslations.get? i = some t)
    (hcl : t.cycleLeft = 0)
    (hdev : (ptFindD s.pageTable t.req.pid t.req.vaddr).deviceID = s.deviceID) :
    processIndex s i = (walkRefreshState s i t, false) := by
  have hcs' : ¬ canSend
      { s with
        walkingTranslations := s.walkingTranslations.set i
          { t with page := ptFindD s.pageTable t.req.pid t.req.vaddr } } 1 := hcs
  simp only [processIndex, finalizePageWalk, doPageWalkHit, hg]
  rw [if_neg (show ¬ 0 < t.cycleLeft by omega), if_pos hdev, if_neg hcs']
  rfl

/-- Helper: with room on the top sender, an index whose entry has finished
its walk and resolves to a local page is answered: the page field is
rewritten, the TranslationResponse for the walked request is pushed on the
top sender and the index is marked for removal. -/
theorem processIndex_local_send (s : GMMU) (i : Nat) (t : Transaction)
    (hcs : canSend s 1)
    (hg : s.walkingTranslations.get? i = some t)
    (hcl : t.cycleLeft = 0)
    (hdev : (ptFindD s.pageTable t.req.pid t.req.vaddr).deviceID = s.deviceID) :
    processIndex s i = (walkAnswerState s i t, true) := by
  have hi : i < s.walkingTranslations.length := by
    rcases List.get?_eq_some.1 hg with ⟨h, _⟩
    exact h
  have hcs' : canSend
      { s with
        walkingTranslations := s.walkingTranslations.set i
          { t with page := ptFindD s.pageTable t.req.pid t.req.vaddr } } 1 := hcs
  simp only [processIndex, finalizePageWalk, doPageWalkHit, hg]
  rw [if_neg (show ¬ 0 < t.cycleLeft by omega), if_pos hdev, if_pos hcs',
    List.get?_set_eq_of_lt _ (by simpa using hi)]
  rfl

/-- Helper: the per-entry pass observed at an index holding a transaction
that has finished its walk (cycleLeft 0) on a locally owned page.  The
entry survives the pass with at most its page field refreshed; the top
sender only grows; with the top sender full nothing is sent and the index
is never marked for removal; and whenever the index is marked for removal,
a response for exactly that request has been pushed on the top sender. -/
theorem walkIndices_local_zero :
    ∀ (idxs : List Nat) (s : GMMU) (i : Nat) (t : Transaction),
      s.walkingTranslations.get? i = some t →
      t.cycleLeft = 0 →
      (ptFindD s.pageTable t.req.pid t.req.vaddr).deviceID = s.deviceID →
      ((walkIndices s idxs).1.walkingTranslations.get? i = some t ∨
       (walkIndices s idxs).1.walkingTranslations.get? i =
         some { t with page := ptFindD s.pageTable t.req.pid t.req.vaddr }) ∧
      (∃ l, (walkIndices s idxs).1.topSenderBuf = s.topSenderBuf ++ l) ∧
      (¬ canSend s 1 →
         (walkIndices s idxs).1.topSenderBuf = s.topSenderBuf ∧
         (i ∈ idxs →
            (walkIndices s idxs).1.walkingTranslations.get? i =
              some { t with page := ptFindD s.pageTable t.req.pid t.req.vaddr }) ∧
         (∀ j, j ∈ (walkIndices s idxs).1.toRemoveFromPTW →
            j ∈ s.toRemoveFromPTW ∨ j ≠ i)) ∧
      (i ∈ (walkIndices s idxs).1.toRemoveFromPTW →
         i ∈ s.toRemoveFromPTW ∨
         ∃ m, m ∈ (walkIndices s idxs).1.topSenderBuf ∧
           m.rspTo = t.req.id ∧
           m.page = ptFindD s.pageTable t.req.pid t.req.vaddr) := by
  intro idxs
  induction idxs with
  | nil =>
    intro s i t hg hcl hdev
    exact ⟨Or.inl hg, ⟨[], (List.append_nil _).symm⟩,
      fun _ => ⟨rfl, fun hmem => absurd hmem (List.not_mem_nil i),
        fun j hj => Or.inl hj⟩,
      fun hin => Or.inl hin⟩
  | cons j rest ih =>
    intro s i t hg hcl hdev
    have hi : i < s.walkingTranslations.length := by
      rcases List.get?_eq_some.1 hg with ⟨h, _⟩
      exact h
    simp only [walkIndices]
    by_cases hij : i = j
    · subst hij
      by_cases hcs : canSend s 1
      · -- the entry is answered at its own step
        rw [processIndex_local_send s i t hcs hg hcl hdev]
        have hg' : (walkAnswerState s i t).walkingTranslations.get? i =
            some { t with page := ptFindD s.pageTable t.req.pid t.req.vaddr } :=
          List.get?_set_eq_of_lt _ (by simpa using hi)
        obtain ⟨hdis, ⟨l2, hbuf⟩, _, _⟩ :=
          ih (walkAnswerState s i t) i
            { t with page := ptFindD s.pageTable t.req.pid t.req.vaddr } hg' hcl hdev
        refine ⟨?_, ?_, fun hn => absurd hcs hn, fun _ => Or.inr ?_⟩
        · rcases hdis with h | h
          · exact Or.inr h
          · exact Or.inr h
        · refine ⟨[walkHitRsp s t] ++ l2, ?_⟩
          rw [hbuf]
          show s.topSenderBuf ++ [walkHitRsp s t] ++ l2 = _
          rw [List.append_assoc]
        · refine ⟨walkHitRsp s t, ?_, rfl, rfl⟩
          rw [hbuf]
          exact List.mem_append_left _
            (List.mem_append_right _ (List.mem_singleton.2 rfl))
      · -- the entry is refreshed in place at its own step
        rw [processIndex_blocked_local s i t hcs hg hcl hdev]
        have hg' : (walkRefreshState s i t).walkingTranslations.get? i =
            some { t with page := ptFindD s.pageTable t.req.pid t.req.vaddr } :=
          List.get?_set_eq_of_lt _ (by simpa using hi)
        obtain ⟨hdis, ⟨l2, hbuf⟩, hblk, hrem⟩ :=
          ih (walkRefreshState s i t) i
            { t with page := ptFindD s.pageTable t.req.pid t.req.vaddr } hg' hcl hdev
        have hget : (walkIndices (walkRefreshState s i t)
              rest).1.walkingTranslations.get? i =
            some { t with page := ptFindD s.pageTable t.req.pid t.req.vaddr } := by
          rcases hdis with h | h
          · exact h
          · exact h
        refine ⟨Or.inr hget, ⟨l2, hbuf⟩, fun hn => ?_, fun hin => ?_⟩
        · obtain ⟨hb, _, hj⟩ := hblk hn
          exact ⟨hb, fun _ => hget, fun j' hj' => hj j' hj'⟩
        · rcases hrem hin with h | h
          · exact Or.inl h
          · obtain ⟨m, h1, h2, h3⟩ := h
            exact Or.inr ⟨m, h1, h2, h3⟩
    · -- some other index is processed first
      have hgA := processIndex_get_ne s j i hij
      have hfA := processIndex_fields s j
      have hbA := processIndex_topSenderBuf s j
      have htA := processIndex_toRemove s j
      have hdev' : (ptFindD (processIndex s j).1.pageTable t.req.pid
            t.req.vaddr).deviceID = (processIndex s j).1.deviceID := by
        rw [hfA.2.2.1, hfA.2.2.2.1]
        exact hdev
      obtain ⟨hdis, ⟨l2, hbuf⟩, hblk, hrem⟩ :=
        ih (processIndex s j).1 i t (by rw [hgA]; exact hg) hcl hdev'
      obtain ⟨l1, hbufA⟩ := hbA
      refine ⟨?_, ?_, fun hn => ?_, fun hin => ?_⟩
      · rcases hdis with h | h
        · exact Or.inl h
        · rw [hfA.2.2.1] at h
          exact Or.inr h
      · exact ⟨l1 ++ l2, by rw [hbuf, hbufA, List.append_assoc]⟩
      · have hbufBlk : (processIndex s j).1.topSenderBuf = s.topSenderBuf :=
          processIndex_blocked_buf s j hn
        have hnA : ¬ canSend (processIndex s j).1 1 := by
          intro hA
          apply hn
          unfold canSend at hA ⊢
          rw [hbufBlk, hfA.2.2.2.2] at hA
          exact hA
        obtain ⟨hb, hinner, hj⟩ := hblk hnA
        refine ⟨by rw [hb, hbufBlk], fun hmem => ?_, fun j' hj' => ?_⟩
        · have hmem' : i ∈ rest := by
            rcases List.mem_cons.1 hmem with h | h
            · exact absurd h hij
            · exact h
          rw [hfA.2.2.1] at hinner
          exact hinner hmem'
        · rcases hj j' hj' with h | h
          · rcases htA with he | he
            · rw [he] at h
              exact Or.inl h
            · rw [he] at h
              rcases List.mem_append.1 h with h2 | h2
              · exact Or.inl h2
              · exact Or.inr (by
                  rw [List.mem_singleton.1 h2]
                  exact fun hc => hij hc.symm)
          · exact Or.inr h
      · rcases hrem hin with h | h
        · rcases htA with he | he
          · rw [he] at h
            exact Or.inl h
          · rw [he] at h
            rcases List.mem_append.1 h with h2 | h2
            · exact Or.inl h2
            · exact absurd (List.mem_singleton.1 h2) hij
        · obtain ⟨m, hm1, hm2, hm3⟩ := h
          rw [hfA.2.2.1] at hm3
          exact Or.inr ⟨m, hm1, hm2, hm3⟩

/-- Helper: toRemoveIdx is false for an index not in the removal list. -/
theorem toRemoveIdx_eq_false_of_not_mem :
    ∀ (l : List Nat) (i : Nat), i ∉ l → toRemoveIdx l i = false := by
  intro l
  induction l with
  | nil => intro i _; rfl
  | cons j rest ih =>
    intro i h
    unfold toRemoveIdx
    by_cases hj : j = i
    · exact absurd (hj ▸ List.mem_cons_self j rest) h
    · rw [if_neg hj]
      exact ih i (fun hm => h (List.mem_cons_of_mem _ hm))

/-- Helper: an entry whose index survives the removal scan is kept by the
compaction of walkPageTable. -/
theorem mem_compact_of_get? {α : Type} (l : List α) (rm : List Nat) (i : Nat)
    (x : α) (hg : l.get? i = some x) (hnr : toRemoveIdx rm i = false) :
    x ∈ (l.enum.filter (fun q => !toRemoveIdx rm q.1)).map Prod.snd := by
  refine List.mem_map.2 ⟨(i, x), ?_, rfl⟩
  refine List.mem_filter.2 ⟨?_, ?_⟩
  · exact List.mk_mem_enum_iff_getElem?.2 (by rw [← List.get?_eq_getElem?]; exact hg)
  · rw [hnr]
    rfl

/-- C7 amended: a walking transaction with cycleLeft 0 whose page is owned
locally is removed from the walking list only in a tick in which its
TranslationResponse is enqueued on the top sender.  If the top sender is
full for the whole tick, nothing is sent, the entry is not marked for
removal, and it survives compaction — with its req and cycleLeft unchanged
but its page field refreshed from the page table, because finalizePageWalk
writes the page before doPageWalkHit checks the sender.  Whenever the index
is marked for removal during the pass, the response for exactly that
request was pushed on the top sender in the same tick. -/
theorem walkPageTable_blocked_retry (s : GMMU) (i : Nat) (t : Transaction)
    (hg : s.walkingTranslations.get? i = some t)
    (hcl : t.cycleLeft = 0)
    (hdev : (ptFindD s.pageTable t.req.pid t.req.vaddr).deviceID = s.deviceID)
    (hrm : s.toRemoveFromPTW = []) :
    (¬ canSend s 1 →
       { t with page := ptFindD s.pageTable t.req.pid t.req.vaddr } ∈
         (walkPageTable s).1.walkingTranslations ∧
       (walkPageTable s).1.topSenderBuf = s.topSenderBuf) ∧
    (i ∈ (walkIndices s
          (List.range s.walkingTranslations.length)).1.toRemoveFromPTW →
       ∃ m, m ∈ (walkPageTable s).1.topSenderBuf ∧
         m.rspTo = t.req.id ∧
         m.page = ptFindD s.pageTable t.req.pid t.req.vaddr) := by
  have hi : i < s.walkingTranslations.length := by
    rcases List.get?_eq_some.1 hg with ⟨h, _⟩
    exact h
  obtain ⟨hdis, hbufEx, hblk, hrem⟩ :=
    walkIndices_local_zero (List.range s.walkingTranslations.length) s i t hg hcl hdev
  constructor
  · intro hn
    obtain ⟨hb, hinner, hj⟩ := hblk hn
    have hgi := hinner (List.mem_range.2 hi)
    have hnotin : i ∉ (walkIndices s
        (List.range s.walkingTranslations.length)).1.toRemoveFromPTW := by
      intro hin
      rcases hj i hin with h | h
      · rw [hrm] at h
        exact List.not_mem_nil i h
      · exact h rfl
    exact ⟨mem_compact_of_get? _ _ i _ hgi
        (toRemoveIdx_eq_false_of_not_mem _ i hnotin), hb⟩
  · intro hin
    rcases hrem hin with h | h
    · rw [hrm] at h
      exact absurd h (List.not_mem_nil i)
    · exact h

/-- The finished walking transaction of the C7 scenario. -/
def c7Tx : Transaction :=
  { req := { id := 5, pid := 0, vaddr := 4096, deviceID := 1, src := 7, dst := 8 },
    page := zeroPage, cycleLeft := 0 }

/-- The locally owned page of the C7 scenario. -/
def c7Page : Page :=
  { pid := 0, vaddr := 4096, paddr := 8192, deviceID := 2, valid := true }

/-- The C7 GMMU with a full top sender (capacity 0). -/
def c7Gmmu : GMMU :=
  { deviceID := 2, latency := 10, maxRequestsInFlight := 16, lowModule := 9,
    topIncoming := [], bottomIncoming := [],
    topOut := [], topOutCap := 4096, topSenderBuf := [], topSenderCap := 0,
    bottomOut := [], bottomOutCap := 4096, pageTable := [c7Page],
    walkingTranslations := [c7Tx], remoteMemReqs := [], toRemoveFromPTW := [],
    cuckooFilter := { keys := [], fp := fun _ => false,
                      insertOk := fun _ _ => true },
    idCounter := 90 }

/-- The same C7 GMMU with room on the top sender. -/
def c7GmmuOpen : GMMU := { c7Gmmu with topSenderCap := 5 }

/-- C7 counterexample: with the top sender full, the finished local
transaction does stay in the walking list for a retry, but it does not
remain there unchanged as claimed — finalizePageWalk has already
overwritten its page field from the page table before doPageWalkHit checks
the sender, so the stored transaction differs after the tick. -/
theorem c7_counterexample :
    (walkPageTable c7Gmmu).1.walkingTranslations ≠ c7Gmmu.walkingTranslations ∧
    (walkPageTable c7Gmmu).1.walkingTranslations.map (fun u => u.req) =
      c7Gmmu.walkingTranslations.map (fun u => u.req) ∧
    (walkPageTable c7Gmmu).1.walkingTranslations.length = 1 ∧
    (walkPageTable c7Gmmu).1.topSenderBuf = c7Gmmu.topSenderBuf := by
  refine ⟨by decide, by decide, by decide, by decide⟩

/-- Witness for walkPageTable_blocked_retry: the blocked state keeps the
refreshed entry and sends nothing; the unblocked state marks the entry for
removal only together with its enqueued response. -/
theorem walkPageTable_blocked_retry_witness :
    ({ c7Tx with page := ptFindD c7Gmmu.pageTable c7Tx.req.pid c7Tx.req.vaddr } ∈
       (walkPageTable c7Gmmu).1.walkingTranslations ∧
     (walkPageTable c7Gmmu).1.topSenderBuf = c7Gmmu.topSenderBuf) ∧
    (∃ m, m ∈ (walkPageTable c7GmmuOpen).1.topSenderBuf ∧
       m.rspTo = c7Tx.req.id ∧
       m.page = ptFindD c7GmmuOpen.pageTable c7Tx.req.pid c7Tx.req.vaddr) :=
  ⟨(walkPageTable_blocked_retry c7Gmmu 0 c7Tx (by decide) (by decide) (by decide)
      (by decide)).1 (by decide),
   (walkPageTable_blocked_retry c7GmmuOpen 0 c7Tx (by decide) (by decide) (by decide)
      (by decide)).2 (by decide)⟩
